import Mathlib

/-!
# BMP280 driver: shallow embedding and verified properties

The C++ class `BMP280` (src/src/BMP280.cpp, src/src/BMP280.h) is embedded as pure
functions over an explicit device record and an explicit model of the two-wire bus.

* Machine integers are `Nat` / `Int`; every place where the C++ code truncates or may
  overflow carries an explicit wrap (`% 256`, `wrap32`, `wrap64`).
* The bus (`Wire`) is a collaborator outside the driver.  It is modelled by `Bus`:
  the answer the transport gives to the n-th transaction (`reply`) and the list of
  transactions issued so far (`log`).
* Output pointers of `read` are modelled by two booleans (pointer non-null) and two
  optional results (`none` = nothing was stored through the pointer).
-/

/-! ## Register map and constants (BMP280.h, lines 18-41) -/

def BMP280_DEVICE_ADDRESS : Nat := 0x76
def BMP280_CHIPID : Nat := 0x58

def BMP280_REGISTER_DIG_T1 : Nat := 0x88
def BMP280_REGISTER_DIG_T2 : Nat := 0x8A
def BMP280_REGISTER_DIG_T3 : Nat := 0x8C
def BMP280_REGISTER_DIG_P1 : Nat := 0x8E
def BMP280_REGISTER_DIG_P2 : Nat := 0x90
def BMP280_REGISTER_DIG_P3 : Nat := 0x92
def BMP280_REGISTER_DIG_P4 : Nat := 0x94
def BMP280_REGISTER_DIG_P5 : Nat := 0x96
def BMP280_REGISTER_DIG_P6 : Nat := 0x98
def BMP280_REGISTER_DIG_P7 : Nat := 0x9A
def BMP280_REGISTER_DIG_P8 : Nat := 0x9C
def BMP280_REGISTER_DIG_P9 : Nat := 0x9E
def BMP280_REGISTER_CHIPID : Nat := 0xD0
def BMP280_REGISTER_SOFTRESET : Nat := 0xE0
def BMP280_REGISTER_STATUS : Nat := 0xF3
def BMP280_REGISTER_CONTROL : Nat := 0xF4
def BMP280_REGISTER_CONFIG : Nat := 0xF5
def BMP280_REGISTER_PRESSUREDATA : Nat := 0xF7
def BMP280_REGISTER_TEMPDATA : Nat := 0xFA

/-! ## Setting enumerations (BMP280.h, lines 43-103) -/

inductive BMP280_OVERSAMPLING
  | SAMPLING_NONE
  | SAMPLING_X1
  | SAMPLING_X2
  | SAMPLING_X4
  | SAMPLING_X8
  | SAMPLING_X16
  deriving DecidableEq

/-- Numeric value of an oversampling enumerator. -/
def BMP280_OVERSAMPLING.val : BMP280_OVERSAMPLING → Nat
  | .SAMPLING_NONE => 0x00
  | .SAMPLING_X1 => 0x01
  | .SAMPLING_X2 => 0x02
  | .SAMPLING_X4 => 0x03
  | .SAMPLING_X8 => 0x04
  | .SAMPLING_X16 => 0x05

inductive BMP280_POWER_MODE
  | MODE_SLEEP
  | MODE_FORCED
  | MODE_NORMAL
  | RESET_CODE
  deriving DecidableEq

/-- Numeric value of a power-mode enumerator. -/
def BMP280_POWER_MODE.val : BMP280_POWER_MODE → Nat
  | .MODE_SLEEP => 0x00
  | .MODE_FORCED => 0x01
  | .MODE_NORMAL => 0x03
  | .RESET_CODE => 0xB6

inductive BMP280_STANDBY_DURATION
  | STANDBY_MS_1
  | STANDBY_MS_63
  | STANDBY_MS_125
  | STANDBY_MS_250
  | STANDBY_MS_500
  | STANDBY_MS_1000
  | STANDBY_MS_2000
  | STANDBY_MS_4000
  deriving DecidableEq

/-- Numeric value of a standby-duration enumerator. -/
def BMP280_STANDBY_DURATION.val : BMP280_STANDBY_DURATION → Nat
  | .STANDBY_MS_1 => 0x00
  | .STANDBY_MS_63 => 0x01
  | .STANDBY_MS_125 => 0x02
  | .STANDBY_MS_250 => 0x03
  | .STANDBY_MS_500 => 0x04
  | .STANDBY_MS_1000 => 0x05
  | .STANDBY_MS_2000 => 0x06
  | .STANDBY_MS_4000 => 0x07

inductive BMP280_FILTER
  | FILTER_OFF
  | FILTER_X2
  | FILTER_X4
  | FILTER_X8
  | FILTER_X16
  deriving DecidableEq

/-- Numeric value of a filter enumerator. -/
def BMP280_FILTER.val : BMP280_FILTER → Nat
  | .FILTER_OFF => 0x00
  | .FILTER_X2 => 0x01
  | .FILTER_X4 => 0x02
  | .FILTER_X8 => 0x03
  | .FILTER_X16 => 0x04

/-! ## Data records (BMP280.h, lines 105-129 and 158-163) -/

/-- The `Settings` record of BMP280.h. -/
structure Settings where
  oversampling_T : BMP280_OVERSAMPLING
  oversampling_P : BMP280_OVERSAMPLING
  power_mode : BMP280_POWER_MODE
  standby_duration : BMP280_STANDBY_DURATION
  filter : BMP280_FILTER
  deriving DecidableEq

/-- The `Calibration_data` record of BMP280.h: `dig_T1` and `dig_P1` are `uint16_t`,
the other ten coefficients are `int16_t`. -/
structure Calibration_data where
  dig_T1 : Nat
  dig_T2 : Int
  dig_T3 : Int
  dig_P1 : Nat
  dig_P2 : Int
  dig_P3 : Int
  dig_P4 : Int
  dig_P5 : Int
  dig_P6 : Int
  dig_P7 : Int
  dig_P8 : Int
  dig_P9 : Int
  deriving DecidableEq

/-- The data members of class `BMP280`. -/
structure BMP280 where
  calibration_data : Calibration_data
  last_settings : Settings
  offline_flag : Bool
  read_calibration_data_flag : Bool
  write_settings_flag : Bool
  deriving DecidableEq

/-! ## The two-wire bus -/

/-- One register transaction as the driver issues it: `read reg len` is a call
`read_data(reg, _, len)`, `write reg data` is a call `write_u8(reg, data)`. -/
inductive BusOp
  | read (reg len : Nat)
  | write (reg data : Nat)
  deriving DecidableEq

/-- What the transport answers to one transaction: `endTx` is the value returned by
`Wire.endTransmission()` (0 = acknowledged), `avail` the bytes the device supplies
to the following `Wire.requestFrom` (used by reads only). -/
structure BusReply where
  endTx : Nat
  avail : List Nat

/-- The transport: `reply n` is its answer to the n-th transaction (counted from 0
over the whole life of the bus), `log` the transactions issued so far, oldest first. -/
structure Bus where
  reply : Nat → BusReply
  log : List BusOp

/-- The answer the transport will give to the next transaction. -/
def Bus.next (b : Bus) : BusReply := b.reply b.log.length

/-- Record a transaction in the log. -/
def Bus.issue (b : Bus) (op : BusOp) : Bus := { b with log := b.log ++ [op] }

/-- A read transaction fails when the address phase is not acknowledged or the
device supplies no byte. -/
def BusReply.readFails (r : BusReply) (len : Nat) : Prop :=
  r.endTx ≠ 0 ∨ r.avail.take len = []

instance (r : BusReply) (len : Nat) : Decidable (r.readFails len) := by
  unfold BusReply.readFails
  exact inferInstance

/-! ## Fixed-width arithmetic helpers -/

/-- Reduction of an integer to the signed 32-bit range (two's complement). -/
def wrap32 (x : Int) : Int := (x + 2 ^ 31) % 2 ^ 32 - 2 ^ 31

/-- Reduction of an integer to the signed 64-bit range (two's complement). -/
def wrap64 (x : Int) : Int := (x + 2 ^ 63) % 2 ^ 64 - 2 ^ 63

/-- Arithmetic right shift `x >> k` of a signed integer (rounds towards minus infinity). -/
def asr (x : Int) (k : Nat) : Int := x / 2 ^ k

/-- Left shift `x << k` before reduction to the machine width. -/
def shl (x : Int) (k : Nat) : Int := x * 2 ^ k

/-- Membership in the signed 32-bit range. -/
def inI32 (x : Int) : Prop := -2 ^ 31 ≤ x ∧ x < 2 ^ 31

/-- Membership in the signed 64-bit range. -/
def inI64 (x : Int) : Prop := -2 ^ 63 ≤ x ∧ x < 2 ^ 63

instance (x : Int) : Decidable (inI32 x) := by
  unfold inI32
  exact inferInstance

instance (x : Int) : Decidable (inI64 x) := by
  unfold inI64
  exact inferInstance

namespace BMP280

/-! ## Bus primitives (BMP280.cpp, lines 222-303) -/

/-- Model of `read_data(reg, pointer, len)` for a non-null `pointer` to a buffer
whose current content is `buf`.  Returns the error code, the buffer afterwards
and the bus.  `Wire.requestFrom(address, len)` buffers at most `len` bytes, each a
`uint8_t`; the bytes received overwrite the front of the buffer. -/
def read_data (b : Bus) (reg : Nat) (buf : List Nat) (len : Nat) : Nat × List Nat × Bus :=
  let r := b.next
  let b1 := b.issue (BusOp.read reg len)
  if r.endTx ≠ 0 then (1, buf, b1)
  else
    let rx := (r.avail.take len).map (fun x => x % 256)
    if rx.isEmpty then (2, buf, b1)
    else (0, rx ++ buf.drop rx.length, b1)

/-- Model of `read_u8`: the error code of `read_data` is dropped. -/
def read_u8 (b : Bus) (reg : Nat) : Nat × Bus :=
  let r := read_data b reg [0] 1
  (r.2.1.getD 0 0, r.2.2)

/-- Big-endian combination `((uint16_t) bytes[0] << 8) | bytes[1]`. -/
def decode_u16 (bytes : List Nat) : Nat :=
  (((bytes.getD 0 0) <<< 8) ||| bytes.getD 1 0) % 65536

/-- Little-endian combination `((uint16_t) bytes[1] << 8) | bytes[0]`. -/
def decode_u16_rev (bytes : List Nat) : Nat :=
  (((bytes.getD 1 0) <<< 8) ||| bytes.getD 0 0) % 65536

/-- The cast `(int16_t) v` of a 16-bit unsigned value. -/
def to_i16 (v : Nat) : Int :=
  if v % 65536 < 32768 then ((v % 65536 : Nat) : Int) else ((v % 65536 : Nat) : Int) - 65536

/-- Combination of three bytes done by `read_u24`: `data = b0; data <<= 8; data |= b1;
data <<= 8; data |= b2` on a `uint32_t`. -/
def decode_u24 (bytes : List Nat) : Nat :=
  (((((bytes.getD 0 0) <<< 8) % 2 ^ 32 ||| bytes.getD 1 0) <<< 8) % 2 ^ 32 ||| bytes.getD 2 0)

/-- Model of `read_u16`. -/
def read_u16 (b : Bus) (reg : Nat) : Nat × Bus :=
  let r := read_data b reg [0, 0] 2
  (decode_u16 r.2.1, r.2.2)

/-- Model of `read_u16_rev`: the error code of `read_data` is dropped, a failed read
leaves the zero-initialised buffer. -/
def read_u16_rev (b : Bus) (reg : Nat) : Nat × Bus :=
  let r := read_data b reg [0, 0] 2
  (decode_u16_rev r.2.1, r.2.2)

/-- Model of `read_i16_rev`. -/
def read_i16_rev (b : Bus) (reg : Nat) : Int × Bus :=
  let r := read_u16_rev b reg
  (to_i16 r.1, r.2)

/-- Model of `read_u24`. -/
def read_u24 (b : Bus) (reg : Nat) : Nat × Bus :=
  let r := read_data b reg [0, 0, 0] 3
  (decode_u24 r.2.1, r.2.2)

/-- Model of `write_u8(reg, data)`: 1 when `Wire.endTransmission()` is nonzero. -/
def write_u8 (b : Bus) (reg data : Nat) : Nat × Bus :=
  let r := b.next
  let b1 := b.issue (BusOp.write reg data)
  if r.endTx ≠ 0 then (1, b1) else (0, b1)

/-! ## Constructor (BMP280.cpp, lines 15-29) -/

/-- The state the constructor establishes. -/
def init : BMP280 :=
  { calibration_data :=
      { dig_T1 := 0, dig_T2 := 0, dig_T3 := 0, dig_P1 := 0, dig_P2 := 0, dig_P3 := 0,
        dig_P4 := 0, dig_P5 := 0, dig_P6 := 0, dig_P7 := 0, dig_P8 := 0, dig_P9 := 0 }
    last_settings :=
      { oversampling_T := BMP280_OVERSAMPLING.SAMPLING_X16
        oversampling_P := BMP280_OVERSAMPLING.SAMPLING_X16
        power_mode := BMP280_POWER_MODE.MODE_NORMAL
        standby_duration := BMP280_STANDBY_DURATION.STANDBY_MS_1
        filter := BMP280_FILTER.FILTER_X2 }
    offline_flag := true
    read_calibration_data_flag := false
    write_settings_flag := false }

/-! ## Settings (BMP280.cpp, lines 74-111) -/

/-- The `uint8_t register_config` computed at line 93. -/
def register_config (s : Settings) : Nat :=
  ((s.standby_duration.val <<< 5) ||| (s.filter.val <<< 2) ||| 0x01) % 256

/-- The `uint8_t register_control` computed at line 94. -/
def register_control (s : Settings) : Nat :=
  ((s.oversampling_T.val <<< 5) ||| (s.oversampling_P.val <<< 2) ||| s.power_mode.val) % 256

/-- Model of the five-argument `writeSettings`; the five arguments are passed as a
`Settings` record. -/
def writeSettings (d : BMP280) (b : Bus) (s : Settings) : Nat × BMP280 × Bus :=
  let d1 := { d with write_settings_flag := false }
  let w1 := write_u8 b BMP280_REGISTER_CONFIG (register_config s)
  if w1.1 ≠ 0 then (1, d1, w1.2)
  else
    let w2 := write_u8 w1.2 BMP280_REGISTER_CONTROL (register_control s)
    if w2.1 ≠ 0 then (2, d1, w2.2)
    else (0, { d1 with last_settings := s, write_settings_flag := true }, w2.2)

/-- Model of the parameterless `writeSettings()`. -/
def writeSettings_last (d : BMP280) (b : Bus) : Nat × BMP280 × Bus :=
  writeSettings d b d.last_settings

/-! ## Calibration load (BMP280.cpp, lines 201-219) -/

/-- Model of `read_calibration_data()`: twelve two-byte reads, then the flag is set
from `dig_T1`. -/
def read_calibration_data (d : BMP280) (b : Bus) : Bool × BMP280 × Bus :=
  let t1 := read_u16_rev b BMP280_REGISTER_DIG_T1
  let t2 := read_i16_rev t1.2 BMP280_REGISTER_DIG_T2
  let t3 := read_i16_rev t2.2 BMP280_REGISTER_DIG_T3
  let p1 := read_u16_rev t3.2 BMP280_REGISTER_DIG_P1
  let p2 := read_i16_rev p1.2 BMP280_REGISTER_DIG_P2
  let p3 := read_i16_rev p2.2 BMP280_REGISTER_DIG_P3
  let p4 := read_i16_rev p3.2 BMP280_REGISTER_DIG_P4
  let p5 := read_i16_rev p4.2 BMP280_REGISTER_DIG_P5
  let p6 := read_i16_rev p5.2 BMP280_REGISTER_DIG_P6
  let p7 := read_i16_rev p6.2 BMP280_REGISTER_DIG_P7
  let p8 := read_i16_rev p7.2 BMP280_REGISTER_DIG_P8
  let p9 := read_i16_rev p8.2 BMP280_REGISTER_DIG_P9
  let cal : Calibration_data :=
    { dig_T1 := t1.1, dig_T2 := t2.1, dig_T3 := t3.1, dig_P1 := p1.1, dig_P2 := p2.1,
      dig_P3 := p3.1, dig_P4 := p4.1, dig_P5 := p5.1, dig_P6 := p6.1, dig_P7 := p7.1,
      dig_P8 := p8.1, dig_P9 := p9.1 }
  let flag := decide (t1.1 ≠ 0)
  (flag, { d with calibration_data := cal, read_calibration_data_flag := flag }, p9.2)

/-! ## Status check (BMP280.cpp, lines 31-71) -/

/-- Lines 61-70 of `status()`: the settings step and the final success. -/
def status_settings_step (d : BMP280) (b : Bus) : Nat × BMP280 × Bus :=
  if !d.write_settings_flag || d.offline_flag then
    let w := writeSettings_last d b
    if !w.2.1.write_settings_flag then (5, w.2.1, w.2.2)
    else (0, { w.2.1 with offline_flag := false }, w.2.2)
  else (0, { d with offline_flag := false }, b)

/-- Lines 53-70 of `status()`: the calibration step followed by the settings step. -/
def status_calibration_step (d : BMP280) (b : Bus) : Nat × BMP280 × Bus :=
  if !d.read_calibration_data_flag || d.offline_flag then
    let c := read_calibration_data d b
    if !c.2.1.read_calibration_data_flag then (4, c.2.1, c.2.2)
    else status_settings_step c.2.1 c.2.2
  else status_settings_step d b

/-- Model of `status()`. -/
def status (d : BMP280) (b : Bus) : Nat × BMP280 × Bus :=
  let r := read_data b BMP280_REGISTER_CHIPID [0] 1
  let err_code := r.1
  let chipid_read := r.2.1.getD 0 0
  if err_code ≠ 0 then (err_code, { d with offline_flag := true }, r.2.2)
  else if chipid_read ≠ BMP280_CHIPID then (3, { d with offline_flag := true }, r.2.2)
  else status_calibration_step d r.2.2

/-- Model of `begin()`. -/
def begin (d : BMP280) (b : Bus) : Nat × BMP280 × Bus := status d b

/-! ## Compensation arithmetic (BMP280.cpp, lines 135-175)

Every function takes the width reduction `w` applied after each addition,
subtraction, multiplication, left shift and division.  The code is the instance
`w = wrap32` (temperature, `int32_t`) resp. `w = wrap64` (pressure, `int64_t`); the
instance `w = id` is the same formula over unbounded integers. -/

/-- Lines 135-136: `var1` of the temperature path. -/
def temp_var1 (w : Int → Int) (c : Calibration_data) (adc_T : Int) : Int :=
  asr (w (w (asr adc_T 3 - w (shl (c.dig_T1 : Int) 1)) * c.dig_T2)) 11

/-- Lines 138-140: `var2` of the temperature path. -/
def temp_var2 (w : Int → Int) (c : Calibration_data) (adc_T : Int) : Int :=
  asr (w (asr (w (w (asr adc_T 4 - (c.dig_T1 : Int)) * w (asr adc_T 4 - (c.dig_T1 : Int)))) 12
    * c.dig_T3)) 14

/-- Line 142: `t_fine = var1 + var2`. -/
def t_fine_gen (w : Int → Int) (c : Calibration_data) (adc_T : Int) : Int :=
  w (temp_var1 w c adc_T + temp_var2 w c adc_T)

/-- Line 145: the integer `(t_fine * 5 + 128) >> 8` stored through `temp` (hundredths of
a degree Celsius; the later float division by 100 is not modelled). -/
def temp_gen (w : Int → Int) (t_fine : Int) : Int :=
  asr (w (w (t_fine * 5) + 128)) 8

/-- The `int32_t` value of `t_fine` computed by `read`. -/
def t_fine_of (c : Calibration_data) (adc_T : Int) : Int := t_fine_gen wrap32 c adc_T

/-- The `int32_t` value stored through `temp` by `read`. -/
def temp_of (t_fine : Int) : Int := temp_gen wrap32 t_fine

/-- Line 159: `var1 = ((int64_t) t_fine) - 128000`. -/
def press_v (w : Int → Int) (t_fine : Int) : Int := w (t_fine - 128000)

/-- Lines 160-162: the final value of the first `var2`. -/
def press_var2 (w : Int → Int) (c : Calibration_data) (t_fine : Int) : Int :=
  let var1 := press_v w t_fine
  let var2 := w (w (var1 * var1) * c.dig_P6)
  let var2 := w (var2 + w (shl (w (var1 * c.dig_P5)) 17))
  w (var2 + w (shl c.dig_P4 35))

/-- Lines 163-165: the value of `var1` tested at line 167 and used as divisor. -/
def press_var1 (w : Int → Int) (c : Calibration_data) (t_fine : Int) : Int :=
  let var1 := press_v w t_fine
  let var1 := w (asr (w (w (var1 * var1) * c.dig_P3)) 8 + w (shl (w (var1 * c.dig_P2)) 12))
  asr (w (w (2 ^ 47 + var1) * (c.dig_P1 : Int))) 33

/-- Signed machine division `a / b` (C++ rounds towards zero); `none` is the
division by zero, which the machine does not define. -/
def sdiv (w : Int → Int) (a b : Int) : Option Int :=
  if b = 0 then none else some (w (Int.tdiv a b))

/-- Lines 170-171: `p_read = 1048576 - adc_P; p_read = (((p_read << 31) - var2) * 3125) / var1`. -/
def press_quot (w : Int → Int) (var1 var2 adc_P : Int) : Option Int :=
  let p_read := w (1048576 - adc_P)
  sdiv w (w (w (w (shl p_read 31) - var2) * 3125)) var1

/-- Lines 172-175: the two final correction terms. -/
def press_final (w : Int → Int) (c : Calibration_data) (p_read : Int) : Int :=
  let var1 := asr (w (w (c.dig_P9 * asr p_read 13) * asr p_read 13)) 25
  let var2 := asr (w (c.dig_P8 * p_read)) 19
  w (asr (w (w (p_read + var1) + var2)) 8 + w (shl c.dig_P7 4))

/-- Lines 159-176 after the raw pressure sample was found nonzero.  The result is
`none` when a division by zero is executed, otherwise the return code of `read`
together with the integer `p_read` stored through `press` (in 1/256 Pa; the float
division by 256.0 is not modelled), `none` when nothing is stored. -/
def press_gen (w : Int → Int) (c : Calibration_data) (t_fine adc_P : Int) :
    Option (Nat × Option Int) :=
  let var2 := press_var2 w c t_fine
  let var1 := press_var1 w c t_fine
  if var1 = 0 then some (5, none)
  else
    match press_quot w var1 var2 adc_P with
    | none => none
    | some p_read => some (0, some (press_final w c p_read))

/-- The `int64_t` pressure path of `read`. -/
def press_of (c : Calibration_data) (t_fine adc_P : Int) : Option (Nat × Option Int) :=
  press_gen wrap64 c t_fine adc_P

/-- The value of every subexpression of the temperature computation (lines 135-145)
that an `int32_t` has to hold, over unbounded integers, in evaluation order: `T1 << 1`,
the difference and the product forming `var1`, the difference, its square and the
product forming `var2`, `t_fine`, `t_fine * 5` and `t_fine * 5 + 128`. -/
def temp_intermediates (c : Calibration_data) (adc_T : Int) : List Int :=
  [shl (c.dig_T1 : Int) 1,
   asr adc_T 3 - shl (c.dig_T1 : Int) 1,
   (asr adc_T 3 - shl (c.dig_T1 : Int) 1) * c.dig_T2,
   asr adc_T 4 - (c.dig_T1 : Int),
   (asr adc_T 4 - (c.dig_T1 : Int)) * (asr adc_T 4 - (c.dig_T1 : Int)),
   asr ((asr adc_T 4 - (c.dig_T1 : Int)) * (asr adc_T 4 - (c.dig_T1 : Int))) 12 * c.dig_T3,
   t_fine_gen id c adc_T,
   t_fine_gen id c adc_T * 5,
   t_fine_gen id c adc_T * 5 + 128]

/-- The value of every subexpression of the pressure computation (lines 159-175)
that an `int64_t` has to hold, over unbounded integers, in evaluation order. -/
def press_intermediates (c : Calibration_data) (t_fine adc_P : Int) : List Int :=
  let v := t_fine - 128000
  let var2 := press_var2 id c t_fine
  let s3 := asr (v * v * c.dig_P3) 8 + shl (v * c.dig_P2) 12
  let var1 := press_var1 id c t_fine
  let p0 := 1048576 - adc_P
  let q := Int.tdiv ((shl p0 31 - var2) * 3125) var1
  [v, v * v, v * v * c.dig_P6, v * c.dig_P5, shl (v * c.dig_P5) 17,
   v * v * c.dig_P6 + shl (v * c.dig_P5) 17, shl c.dig_P4 35, var2,
   v * v * c.dig_P3, v * c.dig_P2, shl (v * c.dig_P2) 12, s3,
   2 ^ 47 + s3, (2 ^ 47 + s3) * (c.dig_P1 : Int),
   p0, shl p0 31, shl p0 31 - var2, (shl p0 31 - var2) * 3125, q,
   c.dig_P9 * asr q 13, c.dig_P9 * asr q 13 * asr q 13, c.dig_P8 * q,
   q + asr (c.dig_P9 * asr q 13 * asr q 13) 25,
   q + asr (c.dig_P9 * asr q 13 * asr q 13) 25 + asr (c.dig_P8 * q) 19,
   shl c.dig_P7 4, press_final id c q]

/-! ## Measurement (BMP280.cpp, lines 114-198) -/

/-- What a call of `read` hands back: the return code and what was stored through
the two output pointers (`none` = nothing stored). -/
structure ReadResult where
  code : Nat
  temp : Option Int
  press : Option Int
  deriving DecidableEq

/-- Model of `read(temp, press)`; `wantT` is `temp != NULL`, `wantP` is
`press != NULL`.  The result is `none` when the call executes a division by zero. -/
def read (d : BMP280) (b : Bus) (wantT wantP : Bool) : Option (ReadResult × BMP280 × Bus) :=
  if !wantT && !wantP then some ({ code := 1, temp := none, press := none }, d, b)
  else
    let st := status d b
    let d1 := st.2.1
    if !d1.read_calibration_data_flag || !d1.write_settings_flag || d1.offline_flag then
      some ({ code := 2, temp := none, press := none }, d1, st.2.2)
    else
      let rt := read_u24 st.2.2 BMP280_REGISTER_TEMPDATA
      let adc_T := asr (rt.1 : Int) 4
      if adc_T = 0 then some ({ code := 3, temp := none, press := none }, d1, rt.2)
      else
        let t_fine := t_fine_of d1.calibration_data adc_T
        let temp := if wantT then some (temp_of t_fine) else none
        if wantP then
          let rp := read_u24 rt.2 BMP280_REGISTER_PRESSUREDATA
          let adc_P := asr (rp.1 : Int) 4
          if adc_P = 0 then some ({ code := 4, temp := temp, press := none }, d1, rp.2)
          else
            match press_of d1.calibration_data t_fine adc_P with
            | none => none
            | some r => some ({ code := r.1, temp := temp, press := r.2 }, d1, rp.2)
        else some ({ code := 0, temp := temp, press := none }, d1, rt.2)

/-- Model of `getT()`: the value of `temp_read` after the call (0 when nothing was
stored), in hundredths of a degree. -/
def getT (d : BMP280) (b : Bus) : Option (Int × BMP280 × Bus) :=
  match read d b true false with
  | none => none
  | some r => some (r.1.temp.getD 0, r.2)

/-- Model of `getP()`: the value of `press_read` after the call (0 when nothing was
stored), in 1/256 Pa. -/
def getP (d : BMP280) (b : Bus) : Option (Int × BMP280 × Bus) :=
  match read d b false true with
  | none => none
  | some r => some (r.1.press.getD 0, r.2)

/-! ## Observing a call from the bus side -/

/-- The chip-id byte delivered to `status()` by its first transaction, `none` when
that read fails. -/
def chipid_read (b : Bus) : Option Nat :=
  let r := read_data b BMP280_REGISTER_CHIPID [0] 1
  if r.1 = 0 then some (r.2.1.getD 0 0) else none

/-- The transactions a call issued when it took the bus from `b` to `b2`. -/
def issued (b b2 : Bus) : List BusOp := b2.log.drop b.log.length

/-- Whether the reply of the transport makes the transaction fail at bus level: a
read fails when `read_data` would return nonzero, a write when `write_u8` would. -/
def failsWith : BusOp → BusReply → Bool
  | BusOp.read _ len, r => decide (r.readFails len)
  | BusOp.write _ _, r => decide (r.endTx ≠ 0)

/-- The transactions, among those a call issued when it took the bus from `b` to `b2`,
that failed at bus level. -/
def failedOps (b b2 : Bus) : List BusOp :=
  (((issued b b2).enumFrom b.log.length).filter
    (fun p => failsWith p.2 (b2.reply p.1))).map (fun p => p.2)

/-- The twelve coefficient reads of `read_calibration_data`, in program order. -/
def calOps : List BusOp :=
  [BusOp.read BMP280_REGISTER_DIG_T1 2, BusOp.read BMP280_REGISTER_DIG_T2 2,
   BusOp.read BMP280_REGISTER_DIG_T3 2, BusOp.read BMP280_REGISTER_DIG_P1 2,
   BusOp.read BMP280_REGISTER_DIG_P2 2, BusOp.read BMP280_REGISTER_DIG_P3 2,
   BusOp.read BMP280_REGISTER_DIG_P4 2, BusOp.read BMP280_REGISTER_DIG_P5 2,
   BusOp.read BMP280_REGISTER_DIG_P6 2, BusOp.read BMP280_REGISTER_DIG_P7 2,
   BusOp.read BMP280_REGISTER_DIG_P8 2, BusOp.read BMP280_REGISTER_DIG_P9 2]

/-- The register writes the settings step of `status()` (lines 61-67) issues from
state `d` on bus `b`: none when the step is skipped, the config write alone when it
is refused, else the config write followed by the control write. -/
def settingsOps (d : BMP280) (b : Bus) : List BusOp :=
  if !d.write_settings_flag || d.offline_flag then
    if b.next.endTx ≠ 0 then
      [BusOp.write BMP280_REGISTER_CONFIG (register_config d.last_settings)]
    else
      [BusOp.write BMP280_REGISTER_CONFIG (register_config d.last_settings),
       BusOp.write BMP280_REGISTER_CONTROL (register_control d.last_settings)]
  else []

/-- The transactions lines 53-67 of `status()` issue from state `d` on bus `b`. -/
def calibrationStepOps (d : BMP280) (b : Bus) : List BusOp :=
  if !d.read_calibration_data_flag || d.offline_flag then
    calOps ++
      (if !(read_calibration_data d b).2.1.read_calibration_data_flag then []
       else settingsOps (read_calibration_data d b).2.1 (read_calibration_data d b).2.2)
  else settingsOps d b

/-- The transactions `status()` issues from state `d` on bus `b`. -/
def statusOps (d : BMP280) (b : Bus) : List BusOp :=
  BusOp.read BMP280_REGISTER_CHIPID 1 ::
    (if chipid_read b = some BMP280_CHIPID then
      calibrationStepOps d (b.issue (BusOp.read BMP280_REGISTER_CHIPID 1))
     else [])

/-- The states the driver can be in: the state the constructor establishes and every
state a public operation (`begin`, `status`, both `writeSettings`, `read`, `getT`,
`getP`) leads to from such a state, whatever the transport does. -/
inductive Reachable : BMP280 → Prop
  | start : Reachable init
  | by_begin (d : BMP280) (b : Bus) : Reachable d → Reachable (begin d b).2.1
  | by_status (d : BMP280) (b : Bus) : Reachable d → Reachable (status d b).2.1
  | by_writeSettings (d : BMP280) (b : Bus) (s : Settings) :
      Reachable d → Reachable (writeSettings d b s).2.1
  | by_writeSettings_last (d : BMP280) (b : Bus) :
      Reachable d → Reachable (writeSettings_last d b).2.1
  | by_read (d : BMP280) (b : Bus) (wantT wantP : Bool) (r : ReadResult × BMP280 × Bus) :
      Reachable d → read d b wantT wantP = some r → Reachable r.2.1
  | by_getT (d : BMP280) (b : Bus) (r : Int × BMP280 × Bus) :
      Reachable d → getT d b = some r → Reachable r.2.1
  | by_getP (d : BMP280) (b : Bus) (r : Int × BMP280 × Bus) :
      Reachable d → getP d b = some r → Reachable r.2.1

/-- The flag discipline of the driver: an online device has its calibration flag set,
and a set calibration flag means the stored `dig_T1` is nonzero. -/
def flagsConsistent (d : BMP280) : Prop :=
  (d.offline_flag = false → d.read_calibration_data_flag = true)
  ∧ (d.read_calibration_data_flag = true → d.calibration_data.dig_T1 ≠ 0)

/-- Bus `b2` is bus `b` after the further transactions `l`. -/
def extendsBy (b b2 : Bus) (l : List BusOp) : Prop :=
  b2.reply = b.reply ∧ b2.log = b.log ++ l

/-! ## Fixtures used to evaluate the model -/

/-- The calibration set of the vendor reference example. -/
def refCal : Calibration_data :=
  { dig_T1 := 27504, dig_T2 := 26435, dig_T3 := -1000, dig_P1 := 36477, dig_P2 := -10685,
    dig_P3 := 3024, dig_P4 := 2855, dig_P5 := 140, dig_P6 := -7, dig_P7 := 15500,
    dig_P8 := -14600, dig_P9 := 6000 }

/-- A transport that acknowledges everything and answers from a table indexed by the
transaction number; transactions beyond the table get no data. -/
def tableBus (table : List (List Nat)) : Bus :=
  { reply := fun n => { endTx := 0, avail := table.getD n [] }, log := [] }

/-- The reference device seen from the bus: chip id, the twelve coefficients of
`refCal` in little-endian byte order, the two settings writes, then the raw samples
`adc_T = 519888` and `adc_P = 415148` left-aligned in three bytes each. -/
def refBus : Bus :=
  tableBus [[0x58],
    [0x70, 0x6B], [0x43, 0x67], [0x18, 0xFC],
    [0x7D, 0x8E], [0x43, 0xD6], [0xD0, 0x0B], [0x27, 0x0B], [0x8C, 0x00], [0xF9, 0xFF],
    [0x8C, 0x3C], [0xF8, 0xC6], [0x70, 0x17],
    [], [],
    [0x7E, 0xED, 0x00], [0x65, 0x5A, 0xC0]]

/-- An acknowledged reply delivering `bytes`. -/
def ack (bytes : List Nat) : BusReply := { endTx := 0, avail := bytes }

/-- A reply that is not acknowledged. -/
def nack : BusReply := { endTx := 2, avail := [] }

/-- A transport that never acknowledges: every `Wire.endTransmission()` returns 2. -/
def deadBus : Bus := { reply := fun _ => nack, log := [] }

/-- A transport answering from a script of replies; transactions beyond the script
are not acknowledged. -/
def scriptBus (script : List BusReply) : Bus :=
  { reply := fun n => script.getD n nack, log := [] }

/-- A transport that acknowledges its first transaction and none after it. -/
def oneAckBus : Bus := scriptBus [ack []]

/-- A transport that acknowledges every transaction and never delivers data. -/
def idleBus : Bus := tableBus []

/-- A transport that acknowledges its first two transactions and none after them. -/
def twoAckBus : Bus := scriptBus [ack [], ack []]

/-- A settings tuple different from the constructor default. -/
def sampleSettings : Settings :=
  { oversampling_T := BMP280_OVERSAMPLING.SAMPLING_X2
    oversampling_P := BMP280_OVERSAMPLING.SAMPLING_X4
    power_mode := BMP280_POWER_MODE.MODE_FORCED
    standby_duration := BMP280_STANDBY_DURATION.STANDBY_MS_250
    filter := BMP280_FILTER.FILTER_X16 }

/-- A calibration set with extreme temperature coefficients inside the ranges of
their types: `dig_T1 = 65535`, `dig_T2 = -32768`, `dig_T3 = 0`. -/
def extremeCalT : Calibration_data :=
  { refCal with dig_T1 := 65535, dig_T2 := -32768, dig_T3 := 0 }

/-- The reference calibration set with `dig_P1` and `dig_P2` at the top of the
ranges of their types: `dig_P1 = 65535`, `dig_P2 = 32767`. -/
def extremeCalP : Calibration_data :=
  { refCal with dig_P1 := 65535, dig_P2 := 32767 }

/-- The driver after a first successful `begin()` on the reference device. -/
def steadyDevice : BMP280 := (begin init refBus).2.1

/-- A transport whose next transaction delivers the chip id 0x58. -/
def chipOkBus : Bus := tableBus [[0x58]]

/-- A transport of an online reference device whose temperature data register reads
all zero while its pressure data register holds the reference sample. -/
def zeroTempBus : Bus := tableBus [[0x58], [0x00, 0x00, 0x00], [0x65, 0x5A, 0xC0]]

/-- A transport of an online reference device whose temperature data register holds
the reference sample while its pressure data register reads all zero. -/
def zeroPressBus : Bus := tableBus [[0x58], [0x7E, 0xED, 0x00], [0x00, 0x00, 0x00]]

/-- A transport that refuses one transaction, then answers one chip-id read and
refuses everything after it. -/
def lostBus : Bus := scriptBus [nack, ack [0x58]]

/-- The online reference driver after a `status()` whose chip-id read is refused. -/
def lostAfterDrop : Nat × BMP280 × Bus := status steadyDevice lostBus

/-- The same driver after the next `status()`, whose chip-id read is answered and
whose coefficient reads are all refused. -/
def lostAfterRetry : Nat × BMP280 × Bus := status lostAfterDrop.2.1 lostAfterDrop.2.2

/-- The online reference driver with `offline_flag` set again, both other flags still
true. -/
def lapsedDevice : BMP280 := { steadyDevice with offline_flag := true }

/-- The fifteen replies of the reference device to a first successful `begin()`:
chip id, twelve coefficients, two acknowledged register writes. -/
def refScript : List BusReply :=
  [ack [0x58],
   ack [0x70, 0x6B], ack [0x43, 0x67], ack [0x18, 0xFC],
   ack [0x7D, 0x8E], ack [0x43, 0xD6], ack [0xD0, 0x0B], ack [0x27, 0x0B], ack [0x8C, 0x00],
   ack [0xF9, 0xFF], ack [0x8C, 0x3C], ack [0xF8, 0xC6], ack [0x70, 0x17],
   ack [], ack []]

/-- The reference device, except that the read of `dig_T2` (third transaction) is
not acknowledged. -/
def skipT2Bus : Bus :=
  scriptBus
    [ack [0x58],
     ack [0x70, 0x6B], nack, ack [0x18, 0xFC],
     ack [0x7D, 0x8E], ack [0x43, 0xD6], ack [0xD0, 0x0B], ack [0x27, 0x0B], ack [0x8C, 0x00],
     ack [0xF9, 0xFF], ack [0x8C, 0x3C], ack [0xF8, 0xC6], ack [0x70, 0x17],
     ack [], ack []]

/-- The reference device with a bus that works during `begin()`, then refuses one
register write, answers the next chip-id read and refuses the next register write. -/
def flakyBus : Bus := scriptBus (refScript ++ [nack, ack [0x58], nack])

/-- The driver after `begin()` on `flakyBus`. -/
def flakyAfterBegin : Nat × BMP280 × Bus := begin init flakyBus

/-- The driver after the caller then tried `writeSettings(sampleSettings)`. -/
def flakyAfterWrite : Nat × BMP280 × Bus :=
  writeSettings flakyAfterBegin.2.1 flakyAfterBegin.2.2 sampleSettings

/-- The driver after the caller then called `status()`. -/
def flakyAfterStatus : Nat × BMP280 × Bus :=
  status flakyAfterWrite.2.1 flakyAfterWrite.2.2

end BMP280

/-! # Verified properties -/

namespace BMP280

/-! ## Basic facts about the bus primitives -/

theorem issue_log (b : Bus) (op : BusOp) : (b.issue op).log = b.log ++ [op] := rfl

theorem issue_reply (b : Bus) (op : BusOp) : (b.issue op).reply = b.reply := rfl

theorem issue_next (b : Bus) (op : BusOp) : (b.issue op).next = b.reply (b.log.length + 1) := by
  simp [Bus.next, Bus.issue]

theorem write_u8_bus (b : Bus) (reg data : Nat) :
    (write_u8 b reg data).2 = b.issue (BusOp.write reg data) := by
  simp only [write_u8]
  split <;> rfl

theorem write_u8_code (b : Bus) (reg data : Nat) :
    (write_u8 b reg data).1 = if b.next.endTx = 0 then 0 else 1 := by
  simp only [write_u8]
  by_cases h : b.next.endTx = 0 <;> simp [h]

theorem read_data_bus (b : Bus) (reg : Nat) (buf : List Nat) (len : Nat) :
    (read_data b reg buf len).2.2 = b.issue (BusOp.read reg len) := by
  simp only [read_data]
  split
  · rfl
  · split <;> rfl

/-- The three outcomes of the explicit `writeSettings`, by the acknowledgement of the
config write (transaction `log.length`) and of the control write (the next one). -/
theorem writeSettings_cases (d : BMP280) (b : Bus) (s : Settings) :
    writeSettings d b s =
      if b.next.endTx ≠ 0 then
        (1, { d with write_settings_flag := false },
          b.issue (BusOp.write BMP280_REGISTER_CONFIG (register_config s)))
      else if (b.reply (b.log.length + 1)).endTx ≠ 0 then
        (2, { d with write_settings_flag := false },
          (b.issue (BusOp.write BMP280_REGISTER_CONFIG (register_config s))).issue
            (BusOp.write BMP280_REGISTER_CONTROL (register_control s)))
      else
        (0, { d with last_settings := s, write_settings_flag := true },
          (b.issue (BusOp.write BMP280_REGISTER_CONFIG (register_config s))).issue
            (BusOp.write BMP280_REGISTER_CONTROL (register_control s))) := by
  simp only [writeSettings, write_u8_bus, write_u8_code, issue_next]
  by_cases h1 : b.next.endTx = 0
  · by_cases h2 : (b.reply (b.log.length + 1)).endTx = 0 <;> simp [h1, h2]
  · simp [h1]

theorem read_data_cases (b : Bus) (reg : Nat) (buf : List Nat) (len : Nat) :
    read_data b reg buf len =
      if b.next.endTx ≠ 0 then (1, buf, b.issue (BusOp.read reg len))
      else if b.next.avail.take len = [] then (2, buf, b.issue (BusOp.read reg len))
      else (0, (b.next.avail.take len).map (fun x => x % 256)
              ++ buf.drop ((b.next.avail.take len).map (fun x => x % 256)).length,
            b.issue (BusOp.read reg len)) := by
  simp only [read_data]
  by_cases h1 : b.next.endTx = 0
  · by_cases h2 : b.next.avail.take len = []
    · simp [h1, h2]
    · have h3 := h2
      simp only [List.take_eq_nil_iff, not_or] at h3
      simp [h1, h3.1, h3.2]
  · simp [h1]

theorem read_data_code_le (b : Bus) (reg : Nat) (buf : List Nat) (len : Nat) :
    (read_data b reg buf len).1 = 0 ∨ (read_data b reg buf len).1 = 1
      ∨ (read_data b reg buf len).1 = 2 := by
  rw [read_data_cases]
  by_cases h1 : b.next.endTx = 0
  · by_cases h2 : b.next.avail.take len = [] <;> simp [h1, h2]
  · simp [h1]

theorem issued_issue (b : Bus) (op : BusOp) : issued b (b.issue op) = [op] := by
  simp [issued, Bus.issue]

/-- The chip-id read seen through the reply of the transport. -/
theorem chipid_read_eq (b : Bus) :
    chipid_read b =
      if b.next.endTx ≠ 0 then none
      else (b.next.avail.head?).map (fun x => x % 256) := by
  simp only [chipid_read, read_data_cases]
  by_cases h1 : b.next.endTx = 0
  · cases h2 : b.next.avail with
    | nil => simp [h1]
    | cons x rest => simp [h1]
  · simp [h1]

/-! ## Basic facts about the status check -/

theorem writeSettings_last_cases (d : BMP280) (b : Bus) :
    writeSettings_last d b =
      if b.next.endTx ≠ 0 then
        (1, { d with write_settings_flag := false },
          b.issue (BusOp.write BMP280_REGISTER_CONFIG (register_config d.last_settings)))
      else if (b.reply (b.log.length + 1)).endTx ≠ 0 then
        (2, { d with write_settings_flag := false },
          (b.issue (BusOp.write BMP280_REGISTER_CONFIG (register_config d.last_settings))).issue
            (BusOp.write BMP280_REGISTER_CONTROL (register_control d.last_settings)))
      else
        (0, { d with write_settings_flag := true },
          (b.issue (BusOp.write BMP280_REGISTER_CONFIG (register_config d.last_settings))).issue
            (BusOp.write BMP280_REGISTER_CONTROL (register_control d.last_settings))) := by
  rw [writeSettings_last, writeSettings_cases]

/-- The calibration load touches only the coefficients and its own flag, and the flag
tells whether the stored `dig_T1` is nonzero. -/
theorem read_calibration_data_frame (d : BMP280) (b : Bus) :
    (read_calibration_data d b).2.1.offline_flag = d.offline_flag
    ∧ (read_calibration_data d b).2.1.write_settings_flag = d.write_settings_flag
    ∧ (read_calibration_data d b).2.1.last_settings = d.last_settings
    ∧ (read_calibration_data d b).2.1.read_calibration_data_flag
        = decide ((read_calibration_data d b).2.1.calibration_data.dig_T1 ≠ 0)
    ∧ (read_calibration_data d b).1
        = (read_calibration_data d b).2.1.read_calibration_data_flag :=
  ⟨rfl, rfl, rfl, rfl, rfl⟩

/-- Outcome of lines 61-70: either success with the device online and the settings
written, or code 5 with the settings flag false and `offline_flag` untouched. -/
theorem status_settings_step_spec (d : BMP280) (b : Bus) :
    ((status_settings_step d b).1 = 0
      ∧ (status_settings_step d b).2.1.offline_flag = false
      ∧ (status_settings_step d b).2.1.write_settings_flag = true
      ∧ (status_settings_step d b).2.1.read_calibration_data_flag = d.read_calibration_data_flag
      ∧ (status_settings_step d b).2.1.calibration_data = d.calibration_data)
    ∨ ((status_settings_step d b).1 = 5
      ∧ (status_settings_step d b).2.1.offline_flag = d.offline_flag
      ∧ (status_settings_step d b).2.1.write_settings_flag = false
      ∧ (status_settings_step d b).2.1.read_calibration_data_flag = d.read_calibration_data_flag
      ∧ (status_settings_step d b).2.1.calibration_data = d.calibration_data) := by
  simp only [status_settings_step, writeSettings_last_cases]
  cases hf : d.write_settings_flag <;> cases ho : d.offline_flag <;>
    by_cases h1 : b.next.endTx = 0 <;>
    by_cases h2 : (b.reply (b.log.length + 1)).endTx = 0 <;> simp [h1, h2]

/-- Outcome of lines 53-70. -/
theorem status_calibration_step_spec (d : BMP280) (b : Bus) :
    ((status_calibration_step d b).1 = 0
      ∧ (status_calibration_step d b).2.1.offline_flag = false
      ∧ (status_calibration_step d b).2.1.write_settings_flag = true
      ∧ (status_calibration_step d b).2.1.read_calibration_data_flag = true)
    ∨ ((status_calibration_step d b).1 = 4
      ∧ (status_calibration_step d b).2.1.offline_flag = d.offline_flag
      ∧ (status_calibration_step d b).2.1.read_calibration_data_flag = false)
    ∨ ((status_calibration_step d b).1 = 5
      ∧ (status_calibration_step d b).2.1.offline_flag = d.offline_flag
      ∧ (status_calibration_step d b).2.1.write_settings_flag = false
      ∧ (status_calibration_step d b).2.1.read_calibration_data_flag = true) := by
  simp only [status_calibration_step]
  by_cases hc : (!d.read_calibration_data_flag || d.offline_flag) = true
  · simp only [hc, if_true]
    cases hf : (read_calibration_data d b).2.1.read_calibration_data_flag
    · right; left
      simp [hf, (read_calibration_data_frame d b).1]
    · simp only [Bool.not_true, Bool.false_eq_true, if_false]
      rcases status_settings_step_spec (read_calibration_data d b).2.1
        (read_calibration_data d b).2.2 with h | h
      · left
        exact ⟨h.1, h.2.1, h.2.2.1, by rw [h.2.2.2.1, hf]⟩
      · right; right
        exact ⟨h.1, by rw [h.2.1, (read_calibration_data_frame d b).1], h.2.2.1,
          by rw [h.2.2.2.1, hf]⟩
  · have hr : d.read_calibration_data_flag = true := by
      cases hf : d.read_calibration_data_flag
      · simp [hf] at hc
      · rfl
    rw [if_neg hc]
    rcases status_settings_step_spec d b with h | h
    · left
      exact ⟨h.1, h.2.1, h.2.2.1, by rw [h.2.2.2.1, hr]⟩
    · right; right
      exact ⟨h.1, h.2.1, h.2.2.1, by rw [h.2.2.2.1, hr]⟩

/-- The three ways `status()` proceeds after the chip-id read. -/
theorem status_cases (d : BMP280) (b : Bus) :
    status d b =
      match chipid_read b with
      | none => ((read_data b BMP280_REGISTER_CHIPID [0] 1).1, { d with offline_flag := true },
          b.issue (BusOp.read BMP280_REGISTER_CHIPID 1))
      | some x =>
          if x ≠ BMP280_CHIPID then
            (3, { d with offline_flag := true }, b.issue (BusOp.read BMP280_REGISTER_CHIPID 1))
          else status_calibration_step d (b.issue (BusOp.read BMP280_REGISTER_CHIPID 1)) := by
  simp only [status, chipid_read, read_data_bus]
  by_cases h : (read_data b BMP280_REGISTER_CHIPID [0] 1).1 = 0
  · simp [h]
  · simp [h]

theorem chipid_read_none_code (b : Bus) (h : chipid_read b = none) :
    (read_data b BMP280_REGISTER_CHIPID [0] 1).1 = 1
      ∨ (read_data b BMP280_REGISTER_CHIPID [0] 1).1 = 2 := by
  simp only [chipid_read] at h
  rcases read_data_code_le b BMP280_REGISTER_CHIPID [0] 1 with h0 | h1 | h2
  · simp [h0] at h
  · exact Or.inl h1
  · exact Or.inr h2

/-! ## Basic facts about failed transactions -/

theorem extendsBy_refl (b : Bus) : extendsBy b b [] := ⟨rfl, by simp⟩

theorem extendsBy_issue (b : Bus) (op : BusOp) : extendsBy b (b.issue op) [op] := ⟨rfl, rfl⟩

theorem extendsBy_trans {b b2 b3 : Bus} {l m : List BusOp}
    (h1 : extendsBy b b2 l) (h2 : extendsBy b2 b3 m) : extendsBy b b3 (l ++ m) :=
  ⟨h2.1.trans h1.1, by rw [h2.2, h1.2, List.append_assoc]⟩

theorem issued_of_extendsBy {b b2 : Bus} {l : List BusOp} (h : extendsBy b b2 l) :
    issued b b2 = l := by
  simp [issued, h.2]

theorem failedOps_of_extendsBy {b b2 : Bus} {l : List BusOp} (h : extendsBy b b2 l) :
    failedOps b b2 =
      ((l.enumFrom b.log.length).filter (fun p => failsWith p.2 (b.reply p.1))).map
        (fun p => p.2) := by
  simp only [failedOps, issued_of_extendsBy h, h.1]

theorem failedOps_trans {b b2 b3 : Bus} {l m : List BusOp}
    (h1 : extendsBy b b2 l) (h2 : extendsBy b2 b3 m) :
    failedOps b b3 = failedOps b b2 ++ failedOps b2 b3 := by
  rw [failedOps_of_extendsBy (extendsBy_trans h1 h2), failedOps_of_extendsBy h1,
    failedOps_of_extendsBy h2, List.enumFrom_append, List.filter_append, List.map_append,
    h1.2, h1.1, List.length_append]

theorem mem_issued_of_mem_failedOps {b b2 : Bus} {op : BusOp} (h : op ∈ failedOps b b2) :
    op ∈ issued b b2 := by
  simp only [failedOps, List.mem_map, List.mem_filter] at h
  obtain ⟨p, ⟨hp, _⟩, rfl⟩ := h
  exact List.mem_enumFrom hp |>.2.2 ▸ List.getElem_mem _

theorem failedOps_issue (b : Bus) (op : BusOp) :
    failedOps b (b.issue op) = if failsWith op b.next = true then [op] else [] := by
  rw [failedOps_of_extendsBy (extendsBy_issue b op)]
  by_cases h : failsWith op b.next = true
  · simp [Bus.next] at h
    simp [Bus.next, h]
  · simp [Bus.next] at h
    simp [Bus.next, h]

theorem failedOps_self (b : Bus) : failedOps b b = [] := by
  rw [failedOps_of_extendsBy (extendsBy_refl b)]
  rfl

theorem read_u16_rev_bus (b : Bus) (reg : Nat) :
    (read_u16_rev b reg).2 = b.issue (BusOp.read reg 2) := by
  simp only [read_u16_rev, read_data_bus]

theorem read_i16_rev_bus (b : Bus) (reg : Nat) :
    (read_i16_rev b reg).2 = b.issue (BusOp.read reg 2) := by
  simp only [read_i16_rev, read_u16_rev_bus]

/-- A failed two-byte read leaves the zero-initialised buffer, which decodes to 0. -/
theorem read_u16_rev_failed (b : Bus) (reg : Nat)
    (h : failsWith (BusOp.read reg 2) b.next = true) : (read_u16_rev b reg).1 = 0 := by
  simp only [failsWith, BusReply.readFails, decide_eq_true_eq] at h
  simp only [read_u16_rev, read_data_cases]
  rcases h with h | h
  · simp [h, decode_u16_rev]
  · by_cases h1 : b.next.endTx = 0
    · simp [h1, h, decode_u16_rev]
    · simp [h1, decode_u16_rev]

theorem read_calibration_data_ext (d : BMP280) (b : Bus) :
    extendsBy b (read_calibration_data d b).2.2 calOps := by
  simp only [read_calibration_data, read_i16_rev_bus, read_u16_rev_bus]
  exact ⟨rfl, by simp [Bus.issue, calOps]⟩

theorem read_calibration_data_T1 (d : BMP280) (b : Bus) :
    (read_calibration_data d b).2.1.calibration_data.dig_T1
      = (read_u16_rev b BMP280_REGISTER_DIG_T1).1 := rfl

/-- Every transaction of the calibration load is a two-byte read, and a failed read of
`dig_T1` makes the load report NotLoaded. -/
theorem read_calibration_data_failed (d : BMP280) (b : Bus) (op : BusOp)
    (h : op ∈ failedOps b (read_calibration_data d b).2.2) :
    (∃ reg, op = BusOp.read reg 2)
    ∧ (op = BusOp.read BMP280_REGISTER_DIG_T1 2 →
        (read_calibration_data d b).2.1.read_calibration_data_flag = false) := by
  constructor
  · have hm := mem_issued_of_mem_failedOps h
    rw [issued_of_extendsBy (read_calibration_data_ext d b)] at hm
    simp only [calOps, List.mem_cons, List.mem_singleton, List.not_mem_nil, or_false] at hm
    rcases hm with h | h | h | h | h | h | h | h | h | h | h | h <;> exact ⟨_, h⟩
  · intro hop
    subst hop
    have hext : extendsBy (b.issue (BusOp.read BMP280_REGISTER_DIG_T1 2))
        (read_calibration_data d b).2.2 calOps.tail :=
      ⟨(read_calibration_data_ext d b).1, by
        rw [(read_calibration_data_ext d b).2]
        simp [Bus.issue, calOps]⟩
    rw [failedOps_trans (extendsBy_issue b _) hext, List.mem_append] at h
    rcases h with h | h
    · rw [failedOps_issue] at h
      by_cases hf : failsWith (BusOp.read BMP280_REGISTER_DIG_T1 2) b.next = true
      · rw [(read_calibration_data_frame d b).2.2.2.1, read_calibration_data_T1,
          read_u16_rev_failed b _ hf]
        rfl
      · simp [hf] at h
    · have hm := mem_issued_of_mem_failedOps h
      rw [issued_of_extendsBy hext] at hm
      exact absurd hm (by decide)

/-- Every transaction of the settings step is a register write, and a failed one
makes the step return 5. -/
theorem status_settings_step_failed (d : BMP280) (b : Bus) :
    (∃ m, extendsBy b (status_settings_step d b).2.2 m)
    ∧ ∀ op, op ∈ failedOps b (status_settings_step d b).2.2 →
        (∃ reg data, op = BusOp.write reg data) ∧ (status_settings_step d b).1 = 5 := by
  simp only [status_settings_step, writeSettings_last_cases]
  by_cases hc : (!d.write_settings_flag || d.offline_flag) = true
  · simp only [hc, if_true]
    by_cases h1 : b.next.endTx = 0
    · by_cases h2 : (b.reply (b.log.length + 1)).endTx = 0
      · simp only [h1, h2, ne_eq, not_true_eq_false, if_false, Bool.not_true,
          Bool.false_eq_true]
        refine ⟨⟨_, extendsBy_trans (extendsBy_issue b _) (extendsBy_issue _ _)⟩, ?_⟩
        intro op hop
        rw [failedOps_trans (extendsBy_issue b _) (extendsBy_issue _ _), failedOps_issue,
          failedOps_issue, issue_next] at hop
        simp [failsWith, h1, h2] at hop
      · simp only [h1, h2, ne_eq, not_true_eq_false, not_false_eq_true, if_false, if_true,
          Bool.not_false]
        refine ⟨⟨_, extendsBy_trans (extendsBy_issue b _) (extendsBy_issue _ _)⟩, ?_⟩
        intro op hop
        rw [failedOps_trans (extendsBy_issue b _) (extendsBy_issue _ _), failedOps_issue,
          failedOps_issue, issue_next] at hop
        simp [failsWith, h1, h2] at hop
        exact ⟨⟨_, _, hop⟩, trivial⟩
    · simp only [h1, ne_eq, not_false_eq_true, if_true, Bool.not_false]
      refine ⟨⟨_, extendsBy_issue b _⟩, ?_⟩
      intro op hop
      rw [failedOps_issue] at hop
      simp [failsWith, h1] at hop
      exact ⟨⟨_, _, hop⟩, trivial⟩
  · rw [if_neg hc]
    refine ⟨⟨_, extendsBy_refl b⟩, ?_⟩
    intro op hop
    rw [failedOps_self] at hop
    simp at hop

/-- Failed transactions of lines 53-70: a failed read of `dig_T1` gives code 4, a
failed register write gives code 5, and nothing else than two-byte reads and register
writes is issued. -/
theorem status_calibration_step_failed (d : BMP280) (b : Bus) :
    (∃ m, extendsBy b (status_calibration_step d b).2.2 m)
    ∧ ∀ op, op ∈ failedOps b (status_calibration_step d b).2.2 →
        ((∃ reg, op = BusOp.read reg 2) ∨ (∃ reg data, op = BusOp.write reg data))
        ∧ (op = BusOp.read BMP280_REGISTER_DIG_T1 2 → (status_calibration_step d b).1 = 4)
        ∧ ((∃ reg data, op = BusOp.write reg data) →
            (status_calibration_step d b).1 = 5) := by
  simp only [status_calibration_step]
  by_cases hc : (!d.read_calibration_data_flag || d.offline_flag) = true
  · rw [if_pos hc]
    cases hf : (read_calibration_data d b).2.1.read_calibration_data_flag
    · simp only [Bool.not_false, if_true]
      refine ⟨⟨_, read_calibration_data_ext d b⟩, ?_⟩
      intro op hop
      obtain ⟨⟨reg, hreg⟩, _⟩ := read_calibration_data_failed d b op hop
      refine ⟨Or.inl ⟨reg, hreg⟩, fun _ => trivial, ?_⟩
      rintro ⟨r, x, hw⟩
      rw [hreg] at hw
      exact absurd hw (by simp)
    · simp only [Bool.not_true, Bool.false_eq_true, if_false]
      obtain ⟨⟨m, hm⟩, hfail⟩ := status_settings_step_failed (read_calibration_data d b).2.1
        (read_calibration_data d b).2.2
      refine ⟨⟨_, extendsBy_trans (read_calibration_data_ext d b) hm⟩, ?_⟩
      intro op hop
      rw [failedOps_trans (read_calibration_data_ext d b) hm, List.mem_append] at hop
      rcases hop with hop | hop
      · obtain ⟨⟨reg, hreg⟩, hT1⟩ := read_calibration_data_failed d b op hop
        refine ⟨Or.inl ⟨reg, hreg⟩, ?_, ?_⟩
        · intro h1
          rw [hT1 h1] at hf
          exact absurd hf (by simp)
        · rintro ⟨r, x, hw⟩
          rw [hreg] at hw
          exact absurd hw (by simp)
      · obtain ⟨⟨r, x, hw⟩, h5⟩ := hfail op hop
        refine ⟨Or.inr ⟨r, x, hw⟩, ?_, fun _ => h5⟩
        intro h1
        rw [hw] at h1
        exact absurd h1 (by simp)
  · rw [if_neg hc]
    obtain ⟨hm, hfail⟩ := status_settings_step_failed d b
    refine ⟨hm, ?_⟩
    intro op hop
    obtain ⟨⟨r, x, hw⟩, h5⟩ := hfail op hop
    refine ⟨Or.inr ⟨r, x, hw⟩, ?_, fun _ => h5⟩
    intro h1
    rw [hw] at h1
    exact absurd h1 (by simp)

/-- A failed chip-id read is what `chipid_read` reports as `none`. -/
theorem chipid_read_failed (b : Bus)
    (h : failsWith (BusOp.read BMP280_REGISTER_CHIPID 1) b.next = true) :
    chipid_read b = none := by
  simp only [failsWith, BusReply.readFails, decide_eq_true_eq] at h
  rw [chipid_read_eq]
  rcases h with h | h
  · simp [h]
  · by_cases h1 : b.next.endTx = 0
    · have h2 : b.next.avail = [] := by
        simpa using h
      simp [h1, h2]
    · simp [h1]

/-! ## The transactions of the status check -/

theorem status_settings_step_ext (d : BMP280) (b : Bus) :
    extendsBy b (status_settings_step d b).2.2 (settingsOps d b) := by
  simp only [status_settings_step, settingsOps, writeSettings_last_cases]
  by_cases hc : (!d.write_settings_flag || d.offline_flag) = true
  · simp only [hc, if_true]
    by_cases h1 : b.next.endTx = 0
    · by_cases h2 : (b.reply (b.log.length + 1)).endTx = 0
      · simp only [h1, h2, ne_eq, not_true_eq_false, if_false, Bool.not_true,
          Bool.false_eq_true]
        exact extendsBy_trans (extendsBy_issue b _) (extendsBy_issue _ _)
      · simp only [h1, h2, ne_eq, not_true_eq_false, not_false_eq_true, if_false, if_true,
          Bool.not_false]
        exact extendsBy_trans (extendsBy_issue b _) (extendsBy_issue _ _)
    · simp only [h1, ne_eq, not_false_eq_true, if_true, Bool.not_false]
      exact extendsBy_issue b _
  · rw [if_neg hc, if_neg hc]
    exact extendsBy_refl b

theorem status_calibration_step_ext (d : BMP280) (b : Bus) :
    extendsBy b (status_calibration_step d b).2.2 (calibrationStepOps d b) := by
  simp only [status_calibration_step, calibrationStepOps]
  by_cases hc : (!d.read_calibration_data_flag || d.offline_flag) = true
  · rw [if_pos hc, if_pos hc]
    cases hf : (read_calibration_data d b).2.1.read_calibration_data_flag
    · simp only [Bool.not_false, if_true, List.append_nil]
      exact read_calibration_data_ext d b
    · simp only [Bool.not_true, Bool.false_eq_true, if_false]
      exact extendsBy_trans (read_calibration_data_ext d b) (status_settings_step_ext _ _)
  · rw [if_neg hc, if_neg hc]
    exact status_settings_step_ext d b

theorem status_ext (d : BMP280) (b : Bus) :
    extendsBy b (status d b).2.2 (statusOps d b) := by
  rw [status_cases]
  unfold statusOps
  cases hc : chipid_read b with
  | none =>
    simpa using extendsBy_issue b (BusOp.read BMP280_REGISTER_CHIPID 1)
  | some x =>
    by_cases hx : x = BMP280_CHIPID
    · subst hx
      simp only [ne_eq, not_true_eq_false, if_false, if_true]
      exact extendsBy_trans (extendsBy_issue b _) (status_calibration_step_ext d _)
    · have hne : ¬ (some x = some BMP280_CHIPID) := by
        simpa using hx
      simp only [ne_eq, hx, not_false_eq_true, if_true, hne, if_false]
      exact extendsBy_issue b _

/-- Every transaction of `status()` is the chip-id read, one of the twelve coefficient
reads, or a register write. -/
theorem statusOps_shape (d : BMP280) (b : Bus) (op : BusOp) (h : op ∈ statusOps d b) :
    op = BusOp.read BMP280_REGISTER_CHIPID 1 ∨ op ∈ calOps
      ∨ ∃ reg data, op = BusOp.write reg data := by
  have hset : ∀ d2 b2, op ∈ settingsOps d2 b2 → ∃ reg data, op = BusOp.write reg data := by
    intro d2 b2 hop
    unfold settingsOps at hop
    split at hop
    · split at hop
      · simp only [List.mem_singleton] at hop
        exact ⟨_, _, hop⟩
      · simp only [List.mem_cons, List.mem_singleton, List.not_mem_nil, or_false] at hop
        rcases hop with hop | hop <;> exact ⟨_, _, hop⟩
    · simp at hop
  unfold statusOps at h
  rw [List.mem_cons] at h
  rcases h with h | h
  · exact Or.inl h
  · split at h
    · unfold calibrationStepOps at h
      split at h
      · rw [List.mem_append] at h
        rcases h with h | h
        · exact Or.inr (Or.inl h)
        · split at h
          · simp at h
          · exact Or.inr (Or.inr (hset _ _ h))
      · exact Or.inr (Or.inr (hset _ _ h))
    · simp at h

/-- No transaction of `status()` reads a register outside the chip id and the
coefficient block; in particular none reads the data registers 0xF7 and 0xFA. -/
theorem statusOps_no_data_read (d : BMP280) (b : Bus) (len : Nat) :
    BusOp.read BMP280_REGISTER_TEMPDATA len ∉ statusOps d b
    ∧ BusOp.read BMP280_REGISTER_PRESSUREDATA len ∉ statusOps d b := by
  constructor
  · intro h
    rcases statusOps_shape d b _ h with h | h | ⟨_, _, h⟩
    · exact absurd h (by simp [BMP280_REGISTER_TEMPDATA, BMP280_REGISTER_CHIPID])
    · simp [calOps, BMP280_REGISTER_TEMPDATA, BMP280_REGISTER_DIG_T1, BMP280_REGISTER_DIG_T2,
        BMP280_REGISTER_DIG_T3, BMP280_REGISTER_DIG_P1, BMP280_REGISTER_DIG_P2,
        BMP280_REGISTER_DIG_P3, BMP280_REGISTER_DIG_P4, BMP280_REGISTER_DIG_P5,
        BMP280_REGISTER_DIG_P6, BMP280_REGISTER_DIG_P7, BMP280_REGISTER_DIG_P8,
        BMP280_REGISTER_DIG_P9] at h
    · exact absurd h (by simp)
  · intro h
    rcases statusOps_shape d b _ h with h | h | ⟨_, _, h⟩
    · exact absurd h (by simp [BMP280_REGISTER_PRESSUREDATA, BMP280_REGISTER_CHIPID])
    · simp [calOps, BMP280_REGISTER_PRESSUREDATA, BMP280_REGISTER_DIG_T1,
        BMP280_REGISTER_DIG_T2, BMP280_REGISTER_DIG_T3, BMP280_REGISTER_DIG_P1,
        BMP280_REGISTER_DIG_P2, BMP280_REGISTER_DIG_P3, BMP280_REGISTER_DIG_P4,
        BMP280_REGISTER_DIG_P5, BMP280_REGISTER_DIG_P6, BMP280_REGISTER_DIG_P7,
        BMP280_REGISTER_DIG_P8, BMP280_REGISTER_DIG_P9] at h
    · exact absurd h (by simp)

/-- Either `status()` returns 0 with the device online and both flags true, or it
returns nonzero and the gate of `read` (line 125) is closed. -/
theorem status_gate (d : BMP280) (b : Bus) :
    ((status d b).1 = 0
      ∧ (status d b).2.1.offline_flag = false
      ∧ (status d b).2.1.read_calibration_data_flag = true
      ∧ (status d b).2.1.write_settings_flag = true)
    ∨ ((status d b).1 ≠ 0
      ∧ (!(status d b).2.1.read_calibration_data_flag
          || !(status d b).2.1.write_settings_flag
          || (status d b).2.1.offline_flag) = true) := by
  rw [status_cases]
  cases hc : chipid_read b with
  | none =>
    right
    rcases chipid_read_none_code b hc with h | h <;> simp [h]
  | some x =>
    by_cases hx : x = BMP280_CHIPID
    · simp only [hx, ne_eq, not_true_eq_false, if_false]
      rcases status_calibration_step_spec d (b.issue (BusOp.read BMP280_REGISTER_CHIPID 1))
        with h | h | h
      · exact Or.inl ⟨h.1, h.2.1, h.2.2.2, h.2.2.1⟩
      · right
        simp [h.1, h.2.2]
      · right
        simp [h.1, h.2.2.1]
    · right
      simp [hx]

/-- What `read` does once its status check returned 0 and something is requested:
lines 129-179. -/
theorem read_online (d : BMP280) (b : Bus) (wantT wantP : Bool)
    (hreq : (wantT || wantP) = true) (hon : (status d b).1 = 0) :
    read d b wantT wantP =
      (if asr ((read_u24 (status d b).2.2 BMP280_REGISTER_TEMPDATA).1 : Int) 4 = 0 then
        some ({ code := 3, temp := none, press := none }, (status d b).2.1,
          (read_u24 (status d b).2.2 BMP280_REGISTER_TEMPDATA).2)
      else if wantP = true then
        (if asr ((read_u24 (read_u24 (status d b).2.2 BMP280_REGISTER_TEMPDATA).2
            BMP280_REGISTER_PRESSUREDATA).1 : Int) 4 = 0 then
          some ({ code := 4,
                  temp := if wantT = true then
                      some (temp_of (t_fine_of (status d b).2.1.calibration_data
                        (asr ((read_u24 (status d b).2.2 BMP280_REGISTER_TEMPDATA).1 : Int) 4)))
                    else none,
                  press := none }, (status d b).2.1,
            (read_u24 (read_u24 (status d b).2.2 BMP280_REGISTER_TEMPDATA).2
              BMP280_REGISTER_PRESSUREDATA).2)
        else
          match press_of (status d b).2.1.calibration_data
              (t_fine_of (status d b).2.1.calibration_data
                (asr ((read_u24 (status d b).2.2 BMP280_REGISTER_TEMPDATA).1 : Int) 4))
              (asr ((read_u24 (read_u24 (status d b).2.2 BMP280_REGISTER_TEMPDATA).2
                BMP280_REGISTER_PRESSUREDATA).1 : Int) 4) with
          | none => none
          | some r =>
            some ({ code := r.1,
                    temp := if wantT = true then
                        some (temp_of (t_fine_of (status d b).2.1.calibration_data
                          (asr ((read_u24 (status d b).2.2 BMP280_REGISTER_TEMPDATA).1 : Int)
                            4)))
                      else none,
                    press := r.2 }, (status d b).2.1,
              (read_u24 (read_u24 (status d b).2.2 BMP280_REGISTER_TEMPDATA).2
                BMP280_REGISTER_PRESSUREDATA).2))
      else
        some ({ code := 0,
                temp := if wantT = true then
                    some (temp_of (t_fine_of (status d b).2.1.calibration_data
                      (asr ((read_u24 (status d b).2.2 BMP280_REGISTER_TEMPDATA).1 : Int) 4)))
                  else none,
                press := none }, (status d b).2.1,
          (read_u24 (status d b).2.2 BMP280_REGISTER_TEMPDATA).2)) := by
  have hgate : (!(status d b).2.1.read_calibration_data_flag
      || !(status d b).2.1.write_settings_flag || (status d b).2.1.offline_flag) = false := by
    rcases status_gate d b with h | h
    · simp [h.2.1, h.2.2.1, h.2.2.2]
    · exact absurd hon h.1
  have hreq' : (!wantT && !wantP) = false := by
    cases wantT <;> cases wantP <;> simp at hreq ⊢
  simp only [read, hreq', hgate, Bool.false_eq_true, if_false]

/-- What `read` does when its status check returned nonzero and something is
requested: line 126. -/
theorem read_offline (d : BMP280) (b : Bus) (wantT wantP : Bool)
    (hreq : (wantT || wantP) = true) (hoff : (status d b).1 ≠ 0) :
    read d b wantT wantP =
      some ({ code := 2, temp := none, press := none }, (status d b).2.1, (status d b).2.2) := by
  have hgate : (!(status d b).2.1.read_calibration_data_flag
      || !(status d b).2.1.write_settings_flag || (status d b).2.1.offline_flag) = true := by
    rcases status_gate d b with h | h
    · exact absurd h.1 hoff
    · exact h.2
  have hreq' : (!wantT && !wantP) = false := by
    cases wantT <;> cases wantP <;> simp at hreq ⊢
  simp only [read, hreq', hgate, Bool.false_eq_true, if_false, if_true]

theorem read_u24_bus (b : Bus) (reg : Nat) :
    (read_u24 b reg).2 = b.issue (BusOp.read reg 3) := by
  simp only [read_u24, read_data_bus]

/-! ## The flag discipline is kept by every operation -/

theorem flagsConsistent_init : flagsConsistent init := by
  constructor
  · intro h
    exact absurd h (by decide)
  · intro h
    exact absurd h (by decide)

theorem flagsConsistent_writeSettings (d : BMP280) (b : Bus) (s : Settings)
    (h : flagsConsistent d) : flagsConsistent (writeSettings d b s).2.1 := by
  rw [writeSettings_cases]
  by_cases h1 : b.next.endTx = 0
  · by_cases h2 : (b.reply (b.log.length + 1)).endTx = 0
    · simp only [h1, h2, ne_eq, not_true_eq_false, if_false]
      exact h
    · simp only [h1, h2, ne_eq, not_true_eq_false, not_false_eq_true, if_false, if_true]
      exact h
  · simp only [h1, ne_eq, not_false_eq_true, if_true]
    exact h

theorem flagsConsistent_status_calibration_step (d : BMP280) (b : Bus)
    (h : flagsConsistent d) : flagsConsistent (status_calibration_step d b).2.1 := by
  simp only [status_calibration_step]
  by_cases hc : (!d.read_calibration_data_flag || d.offline_flag) = true
  · rw [if_pos hc]
    have hframe := read_calibration_data_frame d b
    have hJ : (read_calibration_data d b).2.1.read_calibration_data_flag = true →
        (read_calibration_data d b).2.1.calibration_data.dig_T1 ≠ 0 := by
      intro hf
      rw [hframe.2.2.2.1] at hf
      exact of_decide_eq_true hf
    cases hf : (read_calibration_data d b).2.1.read_calibration_data_flag
    · simp only [hf, Bool.not_false, if_true]
      refine ⟨?_, hJ⟩
      intro ho
      rw [hframe.1] at ho
      have hcal := h.1 ho
      rw [hcal, ho] at hc
      exact absurd hc (by decide)
    · simp only [hf, Bool.not_true, Bool.false_eq_true, if_false]
      rcases status_settings_step_spec (read_calibration_data d b).2.1
        (read_calibration_data d b).2.2 with hs | hs
      · refine ⟨fun _ => by rw [hs.2.2.2.1, hf], ?_⟩
        intro _
        rw [hs.2.2.2.2]
        exact hJ hf
      · refine ⟨fun _ => by rw [hs.2.2.2.1, hf], ?_⟩
        intro _
        rw [hs.2.2.2.2]
        exact hJ hf
  · rw [if_neg hc]
    have hcal : d.read_calibration_data_flag = true := by
      cases hf : d.read_calibration_data_flag
      · simp [hf] at hc
      · rfl
    rcases status_settings_step_spec d b with hs | hs
    · refine ⟨fun _ => by rw [hs.2.2.2.1, hcal], ?_⟩
      intro _
      rw [hs.2.2.2.2]
      exact h.2 hcal
    · refine ⟨fun _ => by rw [hs.2.2.2.1, hcal], ?_⟩
      intro _
      rw [hs.2.2.2.2]
      exact h.2 hcal

theorem flagsConsistent_status (d : BMP280) (b : Bus) (h : flagsConsistent d) :
    flagsConsistent (status d b).2.1 := by
  rw [status_cases]
  cases hc : chipid_read b with
  | none =>
    exact ⟨fun ho => absurd ho (by simp), h.2⟩
  | some x =>
    by_cases hx : x = BMP280_CHIPID
    · simp only [hx, ne_eq, not_true_eq_false, if_false]
      exact flagsConsistent_status_calibration_step d _ h
    · simp only [ne_eq, hx, not_false_eq_true, if_true]
      exact ⟨fun ho => absurd ho (by simp), h.2⟩

/-- The state `read` leaves is the state before the call or the state its status
check left. -/
theorem read_state (d : BMP280) (b : Bus) (wantT wantP : Bool)
    (r : ReadResult × BMP280 × Bus) (h : read d b wantT wantP = some r) :
    r.2.1 = d ∨ r.2.1 = (status d b).2.1 := by
  simp only [read] at h
  split at h
  · left
    rw [← Option.some.inj h]
  · right
    split at h
    · rw [← Option.some.inj h]
    · split at h
      · rw [← Option.some.inj h]
      · split at h
        · split at h
          · rw [← Option.some.inj h]
          · split at h
            · exact absurd h (by simp)
            · rw [← Option.some.inj h]
        · rw [← Option.some.inj h]

theorem flagsConsistent_read (d : BMP280) (b : Bus) (wantT wantP : Bool)
    (r : ReadResult × BMP280 × Bus) (hr : read d b wantT wantP = some r)
    (h : flagsConsistent d) : flagsConsistent r.2.1 := by
  rcases read_state d b wantT wantP r hr with h1 | h1
  · rw [h1]
    exact h
  · rw [h1]
    exact flagsConsistent_status d b h

theorem flagsConsistent_of_reachable (d : BMP280) (h : Reachable d) : flagsConsistent d := by
  induction h with
  | start => exact flagsConsistent_init
  | by_begin d b _ ih => exact flagsConsistent_status d b ih
  | by_status d b _ ih => exact flagsConsistent_status d b ih
  | by_writeSettings d b s _ ih => exact flagsConsistent_writeSettings d b s ih
  | by_writeSettings_last d b _ ih => exact flagsConsistent_writeSettings d b _ ih
  | by_read d b wantT wantP r _ hr ih => exact flagsConsistent_read d b wantT wantP r hr ih
  | by_getT d b r _ hr ih =>
    unfold getT at hr
    split at hr
    · exact absurd hr (by simp)
    · rename_i r0 hr0
      rw [← Option.some.inj hr]
      exact flagsConsistent_read d b true false r0 hr0 ih
  | by_getP d b r _ hr ih =>
    unfold getP at hr
    split at hr
    · exact absurd hr (by simp)
    · rename_i r0 hr0
      rw [← Option.some.inj hr]
      exact flagsConsistent_read d b false true r0 hr0 ih

/-! ## Calibration load on a silent bus -/

theorem read_u16_rev_silent (b : Bus) (reg : Nat)
    (h : ∀ n, (b.reply n).endTx ≠ 0 ∨ (b.reply n).avail = []) :
    (read_u16_rev b reg).1 = 0 := by
  apply read_u16_rev_failed
  simp only [failsWith, BusReply.readFails, decide_eq_true_eq, Bus.next]
  rcases h b.log.length with h1 | h2
  · exact Or.inl h1
  · right
    rw [h2]
    rfl

theorem read_i16_rev_silent (b : Bus) (reg : Nat)
    (h : ∀ n, (b.reply n).endTx ≠ 0 ∨ (b.reply n).avail = []) :
    (read_i16_rev b reg).1 = 0 := by
  simp only [read_i16_rev, read_u16_rev_silent b reg h]
  rfl

theorem read_calibration_data_silent (d : BMP280) (b : Bus)
    (h : ∀ n, (b.reply n).endTx ≠ 0 ∨ (b.reply n).avail = []) :
    (read_calibration_data d b).2.1.calibration_data = init.calibration_data := by
  have hs : ∀ (b2 : Bus) (op : BusOp),
      (∀ n, (b2.reply n).endTx ≠ 0 ∨ (b2.reply n).avail = []) →
      ∀ n, ((b2.issue op).reply n).endTx ≠ 0 ∨ ((b2.issue op).reply n).avail = [] :=
    fun _ _ h2 => h2
  simp only [read_calibration_data, read_i16_rev_bus, read_u16_rev_bus]
  have b1 := hs b (BusOp.read BMP280_REGISTER_DIG_T1 2) h
  have b2 := hs _ (BusOp.read BMP280_REGISTER_DIG_T2 2) b1
  have b3 := hs _ (BusOp.read BMP280_REGISTER_DIG_T3 2) b2
  have b4 := hs _ (BusOp.read BMP280_REGISTER_DIG_P1 2) b3
  have b5 := hs _ (BusOp.read BMP280_REGISTER_DIG_P2 2) b4
  have b6 := hs _ (BusOp.read BMP280_REGISTER_DIG_P3 2) b5
  have b7 := hs _ (BusOp.read BMP280_REGISTER_DIG_P4 2) b6
  have b8 := hs _ (BusOp.read BMP280_REGISTER_DIG_P5 2) b7
  have b9 := hs _ (BusOp.read BMP280_REGISTER_DIG_P6 2) b8
  have b10 := hs _ (BusOp.read BMP280_REGISTER_DIG_P7 2) b9
  have b11 := hs _ (BusOp.read BMP280_REGISTER_DIG_P8 2) b10
  rw [read_u16_rev_silent _ _ h, read_i16_rev_silent _ _ b1, read_i16_rev_silent _ _ b2,
    read_u16_rev_silent _ _ b3, read_i16_rev_silent _ _ b4, read_i16_rev_silent _ _ b5,
    read_i16_rev_silent _ _ b6, read_i16_rev_silent _ _ b7, read_i16_rev_silent _ _ b8,
    read_i16_rev_silent _ _ b9, read_i16_rev_silent _ _ b10, read_i16_rev_silent _ _ b11]
  rfl

/-! ## Basic facts about fixed-width arithmetic -/

theorem wrap32_eq_self {x : Int} (h : inI32 x) : wrap32 x = x := by
  unfold inI32 at h
  unfold wrap32
  rw [Int.emod_eq_of_lt (by linarith [h.1]) (by linarith [h.2])]
  ring

theorem wrap64_eq_self {x : Int} (h : inI64 x) : wrap64 x = x := by
  unfold inI64 at h
  unfold wrap64
  rw [Int.emod_eq_of_lt (by linarith [h.1]) (by linarith [h.2])]
  ring

theorem abs_mul_le_mul {x y X Y : Int} (hx : |x| ≤ X) (hy : |y| ≤ Y) : |x * y| ≤ X * Y := by
  rw [abs_mul]
  exact mul_le_mul hx hy (abs_nonneg y) (le_trans (abs_nonneg x) hx)

theorem abs_add_le_add {x y X Y : Int} (hx : |x| ≤ X) (hy : |y| ≤ Y) : |x + y| ≤ X + Y :=
  le_trans (abs_add x y) (add_le_add hx hy)

theorem abs_sub_le_add {x y X Y : Int} (hx : |x| ≤ X) (hy : |y| ≤ Y) : |x - y| ≤ X + Y :=
  le_trans (abs_sub x y) (add_le_add hx hy)

theorem abs_shl_le {x X : Int} (k : Nat) (hx : |x| ≤ X) : |shl x k| ≤ X * 2 ^ k := by
  unfold shl
  exact abs_mul_le_mul hx (le_of_eq (abs_of_nonneg (by positivity)))

/-- An arithmetic right shift divides the bound. -/
theorem abs_asr_le {x X : Int} (k : Nat) (hx : |x| ≤ X * 2 ^ k) : |asr x k| ≤ X := by
  unfold asr
  have hpos : (0 : Int) < 2 ^ k := by positivity
  rw [abs_le] at hx ⊢
  constructor
  · apply Int.le_ediv_of_mul_le hpos
    linarith [hx.1]
  · have h := Int.ediv_le_ediv hpos hx.2
    rwa [Int.mul_ediv_cancel _ (ne_of_gt hpos)] at h

theorem asr_le_of_le {x X : Int} (k : Nat) (hx : x ≤ X * 2 ^ k) : asr x k ≤ X := by
  unfold asr
  have hpos : (0 : Int) < 2 ^ k := by positivity
  have h := Int.ediv_le_ediv hpos hx
  rwa [Int.mul_ediv_cancel _ (ne_of_gt hpos)] at h

theorem le_asr_of_le {x X : Int} (k : Nat) (hx : X * 2 ^ k ≤ x) : X ≤ asr x k := by
  unfold asr
  exact Int.le_ediv_of_mul_le (by positivity) hx

theorem inI32_of_abs_lt {x X : Int} (hx : |x| ≤ X) (hX : X < 2 ^ 31) : inI32 x := by
  rw [abs_le] at hx
  unfold inI32
  constructor <;> linarith [hx.1, hx.2]

theorem inI64_of_abs_lt {x X : Int} (hx : |x| ≤ X) (hX : X < 2 ^ 63) : inI64 x := by
  rw [abs_le] at hx
  unfold inI64
  constructor <;> linarith [hx.1, hx.2]

/-- Truncating division by a divisor of at least `L` divides the bound by `L`. -/
theorem abs_tdiv_le {a b L Q : Int} (hL : 0 < L) (hb : L ≤ b) (ha : |a| ≤ Q * L) :
    |Int.tdiv a b| ≤ Q := by
  have hb0 : 0 < b := lt_of_lt_of_le hL hb
  have hQ : 0 ≤ Q := by
    by_contra hneg
    have : Q * L < 0 := mul_neg_of_neg_of_pos (not_le.mp hneg) hL
    linarith [abs_nonneg a]
  have key : ∀ x : Int, 0 ≤ x → x ≤ Q * L →
      0 ≤ Int.tdiv x b ∧ Int.tdiv x b ≤ Q := by
    intro x hx0 hx
    rw [Int.tdiv_eq_ediv hx0 (le_of_lt hb0)]
    refine ⟨Int.ediv_nonneg hx0 (le_of_lt hb0), Int.ediv_le_of_le_mul hb0 ?_⟩
    exact le_trans hx (mul_le_mul_of_nonneg_left hb hQ)
  rw [abs_le] at ha
  rw [abs_le]
  by_cases h0 : 0 ≤ a
  · obtain ⟨h1, h2⟩ := key a h0 ha.2
    constructor <;> linarith
  · have hn : 0 ≤ -a := by linarith
    obtain ⟨h1, h2⟩ := key (-a) hn (by linarith [ha.1])
    rw [Int.neg_tdiv] at h1 h2
    constructor <;> linarith

/-! ## Bounds along the pressure path -/

/-- Magnitudes of the subexpressions forming the first `var2` (lines 160-162). -/
theorem press_var2_bounds (v P4 P5 P6 : Int) (hv : |v| ≤ 2 ^ 18) (h4 : |P4| ≤ 8192)
    (h5 : |P5| ≤ 2048) (h6 : |P6| ≤ 1024) :
    |v * v| ≤ 2 ^ 36 ∧ |v * v * P6| ≤ 2 ^ 46 ∧ |v * P5| ≤ 2 ^ 29
    ∧ |shl (v * P5) 17| ≤ 2 ^ 46 ∧ |v * v * P6 + shl (v * P5) 17| ≤ 2 ^ 47
    ∧ |shl P4 35| ≤ 2 ^ 48
    ∧ |v * v * P6 + shl (v * P5) 17 + shl P4 35| ≤ 3 * 2 ^ 47 := by
  have a1 : |v * v| ≤ 2 ^ 36 := (abs_mul_le_mul hv hv).trans (by norm_num)
  have a2 : |v * v * P6| ≤ 2 ^ 46 := (abs_mul_le_mul a1 h6).trans (by norm_num)
  have b1 : |v * P5| ≤ 2 ^ 29 := (abs_mul_le_mul hv h5).trans (by norm_num)
  have b2 : |shl (v * P5) 17| ≤ 2 ^ 46 := (abs_shl_le 17 b1).trans (by norm_num)
  have s1 : |v * v * P6 + shl (v * P5) 17| ≤ 2 ^ 47 :=
    (abs_add_le_add a2 b2).trans (by norm_num)
  have c1 : |shl P4 35| ≤ 2 ^ 48 := (abs_shl_le 35 h4).trans (by norm_num)
  exact ⟨a1, a2, b1, b2, s1, c1, (abs_add_le_add s1 c1).trans (by norm_num)⟩

/-- Magnitudes of the subexpressions forming the divisor `var1` (lines 163-165). -/
theorem press_var1_bounds (v P1 P2 P3 : Int) (hv : |v| ≤ 2 ^ 18)
    (h1 : 8192 ≤ P1 ∧ P1 ≤ 49152) (h2 : |P2| ≤ 32768) (h3 : |P3| ≤ 32768) :
    |v * v * P3| ≤ 2 ^ 51 ∧ |v * P2| ≤ 2 ^ 33 ∧ |shl (v * P2) 12| ≤ 2 ^ 45
    ∧ |asr (v * v * P3) 8 + shl (v * P2) 12| ≤ 5 * 2 ^ 43
    ∧ (11 * 2 ^ 43 ≤ 2 ^ 47 + (asr (v * v * P3) 8 + shl (v * P2) 12)
      ∧ 2 ^ 47 + (asr (v * v * P3) 8 + shl (v * P2) 12) ≤ 21 * 2 ^ 43)
    ∧ (11 * 2 ^ 56 ≤ (2 ^ 47 + (asr (v * v * P3) 8 + shl (v * P2) 12)) * P1
      ∧ (2 ^ 47 + (asr (v * v * P3) 8 + shl (v * P2) 12)) * P1 ≤ 63 * 2 ^ 57)
    ∧ 11 * 2 ^ 23 ≤ asr ((2 ^ 47 + (asr (v * v * P3) 8 + shl (v * P2) 12)) * P1) 33 := by
  have a1 : |v * v| ≤ 2 ^ 36 := (abs_mul_le_mul hv hv).trans (by norm_num)
  have d2 : |v * v * P3| ≤ 2 ^ 51 := (abs_mul_le_mul a1 h3).trans (by norm_num)
  have e1 : |v * P2| ≤ 2 ^ 33 := (abs_mul_le_mul hv h2).trans (by norm_num)
  have e2 : |shl (v * P2) 12| ≤ 2 ^ 45 := (abs_shl_le 12 e1).trans (by norm_num)
  have d3 : |asr (v * v * P3) 8| ≤ 2 ^ 43 := abs_asr_le 8 (d2.trans (by norm_num))
  have s3 : |asr (v * v * P3) 8 + shl (v * P2) 12| ≤ 5 * 2 ^ 43 :=
    (abs_add_le_add d3 e2).trans (by norm_num)
  have s3' := abs_le.mp s3
  have f1 : 11 * 2 ^ 43 ≤ 2 ^ 47 + (asr (v * v * P3) 8 + shl (v * P2) 12)
      ∧ 2 ^ 47 + (asr (v * v * P3) 8 + shl (v * P2) 12) ≤ 21 * 2 ^ 43 := by
    constructor <;> linarith [s3'.1, s3'.2]
  have f2 : 11 * 2 ^ 56 ≤ (2 ^ 47 + (asr (v * v * P3) 8 + shl (v * P2) 12)) * P1
      ∧ (2 ^ 47 + (asr (v * v * P3) 8 + shl (v * P2) 12)) * P1 ≤ 63 * 2 ^ 57 := by
    constructor
    · calc (11 * 2 ^ 56 : Int) = 11 * 2 ^ 43 * 8192 := by norm_num
        _ ≤ (2 ^ 47 + (asr (v * v * P3) 8 + shl (v * P2) 12)) * P1 :=
            mul_le_mul f1.1 h1.1 (by norm_num) (by linarith [f1.1])
    · calc (2 ^ 47 + (asr (v * v * P3) 8 + shl (v * P2) 12)) * P1
          ≤ 21 * 2 ^ 43 * 49152 :=
            mul_le_mul f1.2 h1.2 (by linarith [h1.1]) (by norm_num)
        _ = 63 * 2 ^ 57 := by norm_num
  refine ⟨d2, e1, e2, s3, f1, f2, le_asr_of_le 33 ?_⟩
  calc (11 * 2 ^ 23 * 2 ^ 33 : Int) = 11 * 2 ^ 56 := by norm_num
    _ ≤ _ := f2.1

/-- Magnitudes of the numerator and the quotient (lines 170-171). -/
theorem press_quot_bounds (var1 var2 adc_P : Int) (hP : 1 ≤ adc_P ∧ adc_P < 2 ^ 20)
    (h1 : 11 * 2 ^ 23 ≤ var1) (h2 : |var2| ≤ 3 * 2 ^ 47) :
    |1048576 - adc_P| ≤ 2 ^ 20 ∧ |shl (1048576 - adc_P) 31| ≤ 2 ^ 51
    ∧ |shl (1048576 - adc_P) 31 - var2| ≤ 19 * 2 ^ 47
    ∧ |(shl (1048576 - adc_P) 31 - var2) * 3125| ≤ 59375 * 2 ^ 47
    ∧ |Int.tdiv ((shl (1048576 - adc_P) 31 - var2) * 3125) var1| ≤ 5398 * 2 ^ 24 := by
  have p0 : |1048576 - adc_P| ≤ 2 ^ 20 := by
    rw [abs_le]
    constructor <;> linarith [hP.1, hP.2]
  have g1 : |shl (1048576 - adc_P) 31| ≤ 2 ^ 51 := (abs_shl_le 31 p0).trans (by norm_num)
  have g2 : |shl (1048576 - adc_P) 31 - var2| ≤ 19 * 2 ^ 47 :=
    (abs_sub_le_add g1 h2).trans (by norm_num)
  have g3 : |(shl (1048576 - adc_P) 31 - var2) * 3125| ≤ 59375 * 2 ^ 47 :=
    (abs_mul_le_mul g2 (le_of_eq (abs_of_nonneg (by norm_num)))).trans (by norm_num)
  exact ⟨p0, g1, g2, g3, abs_tdiv_le (by norm_num) h1 (g3.trans (by norm_num))⟩

/-- Magnitudes of the subexpressions of the final correction (lines 172-175). -/
theorem press_final_bounds (q P7 P8 P9 : Int) (hq : |q| ≤ 5398 * 2 ^ 24) (h7 : |P7| ≤ 32768)
    (h8 : |P8| ≤ 32768) (h9 : |P9| ≤ 32768) :
    |P9 * asr q 13| ≤ 5398 * 2 ^ 26 ∧ |P9 * asr q 13 * asr q 13| ≤ 29138404 * 2 ^ 37
    ∧ |P8 * q| ≤ 5398 * 2 ^ 39
    ∧ |q + asr (P9 * asr q 13 * asr q 13) 25| ≤ 51248612 * 2 ^ 12
    ∧ |q + asr (P9 * asr q 13 * asr q 13) 25 + asr (P8 * q) 19| ≤ 52630500 * 2 ^ 12
    ∧ |shl P7 4| ≤ 2 ^ 19
    ∧ |asr (q + asr (P9 * asr q 13 * asr q 13) 25 + asr (P8 * q) 19) 8 + shl P7 4|
        ≤ 842612288 := by
  have q13 : |asr q 13| ≤ 5398 * 2 ^ 11 := abs_asr_le 13 (hq.trans (by norm_num))
  have h1 : |P9 * asr q 13| ≤ 5398 * 2 ^ 26 := (abs_mul_le_mul h9 q13).trans (by norm_num)
  have h2 : |P9 * asr q 13 * asr q 13| ≤ 29138404 * 2 ^ 37 :=
    (abs_mul_le_mul h1 q13).trans (by norm_num)
  have v1 : |asr (P9 * asr q 13 * asr q 13) 25| ≤ 29138404 * 2 ^ 12 :=
    abs_asr_le 25 (h2.trans (by norm_num))
  have k1 : |P8 * q| ≤ 5398 * 2 ^ 39 := (abs_mul_le_mul h8 hq).trans (by norm_num)
  have v2 : |asr (P8 * q) 19| ≤ 5398 * 2 ^ 20 := abs_asr_le 19 (k1.trans (by norm_num))
  have m1 : |q + asr (P9 * asr q 13 * asr q 13) 25| ≤ 51248612 * 2 ^ 12 :=
    (abs_add_le_add hq v1).trans (by norm_num)
  have m2 : |q + asr (P9 * asr q 13 * asr q 13) 25 + asr (P8 * q) 19| ≤ 52630500 * 2 ^ 12 :=
    (abs_add_le_add m1 v2).trans (by norm_num)
  have n1 : |shl P7 4| ≤ 2 ^ 19 := (abs_shl_le 4 h7).trans (by norm_num)
  have m3 : |asr (q + asr (P9 * asr q 13 * asr q 13) 25 + asr (P8 * q) 19) 8|
      ≤ 52630500 * 2 ^ 4 := abs_asr_le 8 (m2.trans (by norm_num))
  exact ⟨h1, h2, k1, m1, m2, n1, (abs_add_le_add m3 n1).trans (by norm_num)⟩

/-! ## Basic facts about the pressure path -/

/-- The pressure path as a two-way case distinction on the divisor. -/
theorem press_gen_cases (w : Int → Int) (c : Calibration_data) (t_fine adc_P : Int) :
    press_gen w c t_fine adc_P =
      if press_var1 w c t_fine = 0 then some (5, none)
      else some (0, some (press_final w c
        (w (Int.tdiv
          (w (w (w (shl (w (1048576 - adc_P)) 31) - press_var2 w c t_fine) * 3125))
          (press_var1 w c t_fine))))) := by
  simp only [press_gen, press_quot, sdiv]
  by_cases h : press_var1 w c t_fine = 0
  · simp [h]
  · simp [h]

theorem press_of_isSome (c : Calibration_data) (t_fine adc_P : Int) :
    ∃ r, press_of c t_fine adc_P = some r
      ∧ (r.1 = 0 ∧ r.2.isSome ∨ r.1 = 5 ∧ r.2 = none) := by
  unfold press_of
  rw [press_gen_cases]
  by_cases h : press_var1 wrap64 c t_fine = 0
  · exact ⟨(5, none), by simp [h], Or.inr ⟨rfl, rfl⟩⟩
  · exact ⟨(0, some _), by rw [if_neg h], Or.inl ⟨rfl, rfl⟩⟩

/-! ## Settings encoding -/

/-- C1: for every settings tuple the explicit `writeSettings` puts on the bus the
config byte `((standby_duration << 5) | (filter << 2) | 0x01) mod 256` at register 0xF5
and, when that write is acknowledged, the control byte
`((oversampling_T << 5) | (oversampling_P << 2) | power_mode) mod 256` at register 0xF4;
standby `STANDBY_MS_1` with filter `FILTER_X2` gives config byte 0x05, and
`SAMPLING_X16`, `SAMPLING_X16`, `MODE_NORMAL` give control byte 0xB7. -/
theorem writeSettings_encoding (d : BMP280) (b : Bus) (s : Settings) :
    (writeSettings d b s).2.2.log =
      b.log ++
        (if b.next.endTx ≠ 0 then
          [BusOp.write 0xF5
            (((s.standby_duration.val <<< 5) ||| (s.filter.val <<< 2) ||| 0x01) % 256)]
        else
          [BusOp.write 0xF5
            (((s.standby_duration.val <<< 5) ||| (s.filter.val <<< 2) ||| 0x01) % 256),
           BusOp.write 0xF4
            (((s.oversampling_T.val <<< 5) ||| (s.oversampling_P.val <<< 2)
              ||| s.power_mode.val) % 256)])
    ∧ (∀ ot op pm, register_config
        { oversampling_T := ot, oversampling_P := op, power_mode := pm,
          standby_duration := BMP280_STANDBY_DURATION.STANDBY_MS_1,
          filter := BMP280_FILTER.FILTER_X2 } = 0x05)
    ∧ (∀ sd f, register_control
        { oversampling_T := BMP280_OVERSAMPLING.SAMPLING_X16,
          oversampling_P := BMP280_OVERSAMPLING.SAMPLING_X16,
          power_mode := BMP280_POWER_MODE.MODE_NORMAL,
          standby_duration := sd, filter := f } = 0xB7) := by
  refine ⟨?_, fun _ _ _ => ?_, fun _ _ => ?_⟩
  · rw [writeSettings_cases]
    by_cases h1 : b.next.endTx = 0
    · by_cases h2 : (b.reply (b.log.length + 1)).endTx = 0 <;>
        simp [h1, h2, issue_log, register_config, register_control, BMP280_REGISTER_CONFIG,
          BMP280_REGISTER_CONTROL]
    · simp [h1, issue_log, register_config, BMP280_REGISTER_CONFIG]
  · simp [register_config, BMP280_STANDBY_DURATION.val, BMP280_FILTER.val]
  · simp [register_control, BMP280_OVERSAMPLING.val, BMP280_POWER_MODE.val]

/-! ## Reference vector -/

/-- C2: with the vendor reference calibration set and the raw samples
`adc_T = 519888`, `adc_P = 415148` the integer pipeline of `read` yields
`t_fine = 128422`, the integer temperature 2508 (25.08 degC) and a final integer
pressure `p_read = 25767233`, which divided by 256 lies in [100653, 100654) Pa; a
freshly constructed driver talking to the reference device gets exactly these values
from `read` with both outputs requested. -/
theorem reference_vector :
    t_fine_of refCal 519888 = 128422
    ∧ temp_of 128422 = 2508
    ∧ press_of refCal 128422 415148 = some (0, some 25767233)
    ∧ ((100653 : Int) * 256 ≤ 25767233 ∧ (25767233 : Int) < 100654 * 256)
    ∧ (read init refBus true true).map (fun r => (r.1, r.2.1.calibration_data))
        = some ({ code := 0, temp := some 2508, press := some 25767233 }, refCal) := by
  refine ⟨by decide, by decide, by decide, by decide, by decide⟩

/-! ## Division guard -/

/-- C3: the division of the pressure path is never executed with a zero divisor.
For every calibration set, every `t_fine` and every raw pressure sample the `int64_t`
pressure path returns code 5 with no pressure stored when the intermediate
`var1 = ((2^47 + var1) * P1) >> 33` is 0, and otherwise divides by that nonzero `var1`
and returns 0 with the pressure stored; `P1 = 0` makes `var1 = 0`; hence `read` never
executes a division by zero, and when it returns 5 the pressure output is unwritten. -/
theorem pressure_division_guarded (c : Calibration_data) (t_fine adc_P : Int)
    (d : BMP280) (b : Bus) (wantT wantP : Bool) :
    press_of c t_fine adc_P =
      (if press_var1 wrap64 c t_fine = 0 then some (5, none)
       else some (0, some (press_final wrap64 c
        (wrap64 (Int.tdiv
          (wrap64 (wrap64 (wrap64 (shl (wrap64 (1048576 - adc_P)) 31)
            - press_var2 wrap64 c t_fine) * 3125))
          (press_var1 wrap64 c t_fine))))))
    ∧ (press_quot wrap64 (press_var1 wrap64 c t_fine) (press_var2 wrap64 c t_fine) adc_P = none
        ↔ press_var1 wrap64 c t_fine = 0)
    ∧ press_var1 wrap64 { c with dig_P1 := 0 } t_fine = 0
    ∧ ∃ r, read d b wantT wantP = some r ∧ (r.1.code ≠ 5 ∨ r.1.press = none) := by
  refine ⟨press_gen_cases wrap64 c t_fine adc_P, ?_, ?_, ?_⟩
  · simp only [press_quot, sdiv]
    by_cases h : press_var1 wrap64 c t_fine = 0 <;> simp [h]
  · simp [press_var1, wrap64, asr]
  · simp only [read]
    split
    · exact ⟨_, rfl, Or.inl (by simp)⟩
    · split
      · exact ⟨_, rfl, Or.inl (by simp)⟩
      · split
        · exact ⟨_, rfl, Or.inl (by simp)⟩
        · split
          · split
            · exact ⟨_, rfl, Or.inl (by simp)⟩
            · rename_i h1 h2 h3 h4 h5
              obtain ⟨r, hr, hcase⟩ := press_of_isSome
                (status d b).2.1.calibration_data
                (t_fine_of (status d b).2.1.calibration_data
                  (asr ((read_u24 (status d b).2.2 BMP280_REGISTER_TEMPDATA).1 : Int) 4))
                (asr ((read_u24 (read_u24 (status d b).2.2 BMP280_REGISTER_TEMPDATA).2
                  BMP280_REGISTER_PRESSUREDATA).1 : Int) 4)
              rw [hr]
              refine ⟨_, rfl, ?_⟩
              rcases hcase with ⟨h0, _⟩ | ⟨_, hn⟩
              · left
                simp [h0]
              · right
                exact hn
          · exact ⟨_, rfl, Or.inl (by simp)⟩

/-! ## Status check -/

/-- C6: for every device state, when every bus transaction fails (is not
acknowledged or delivers no data), `status()` returns transport-error code 1 or 2,
leaves `offline_flag = true` and everything else unchanged, and issues no transaction
besides the failed one-byte read of the chip-id register 0xD0. -/
theorem status_dead_bus (d : BMP280) (b : Bus)
    (h : ∀ n, (b.reply n).endTx ≠ 0 ∨ (b.reply n).avail = []) :
    ((status d b).1 = 1 ∨ (status d b).1 = 2)
    ∧ (status d b).2.1 = { d with offline_flag := true }
    ∧ issued b (status d b).2.2 = [BusOp.read 0xD0 1] := by
  have hn : chipid_read b = none := by
    rw [chipid_read_eq]
    rcases h b.log.length with h1 | h2
    · simp [Bus.next, h1]
    · simp [Bus.next, h2]
  rw [status_cases, hn]
  exact ⟨chipid_read_none_code b hn, rfl, issued_issue b _⟩

/-- Instance of C6: a freshly constructed driver on a bus that never acknowledges. -/
theorem status_dead_bus_witness :
    (∀ n, (deadBus.reply n).endTx ≠ 0 ∨ (deadBus.reply n).avail = [])
    ∧ ((status init deadBus).1 = 1 ∨ (status init deadBus).1 = 2)
    ∧ (status init deadBus).2.1 = { init with offline_flag := true }
    ∧ issued deadBus (status init deadBus).2.2 = [BusOp.read 0xD0 1] :=
  ⟨fun _ => Or.inr rfl, status_dead_bus init deadBus (fun _ => Or.inr rfl)⟩

/-- C8: for every device state and transport behaviour, if `status()` returns 0 then
the chip-id byte read was 0x58 and afterwards `offline_flag = false`,
`read_calibration_data_flag = true` and `write_settings_flag = true`; `status()`
returns only values in 0..5, and it returns 3 exactly when the chip-id read
succeeds with a byte different from 0x58. -/
theorem status_return_codes (d : BMP280) (b : Bus) :
    ((status d b).1 = 0 →
      chipid_read b = some 0x58
      ∧ (status d b).2.1.offline_flag = false
      ∧ (status d b).2.1.read_calibration_data_flag = true
      ∧ (status d b).2.1.write_settings_flag = true)
    ∧ (status d b).1 ≤ 5
    ∧ ((status d b).1 = 3 ↔ ∃ x, chipid_read b = some x ∧ x ≠ 0x58) := by
  rw [status_cases]
  cases hc : chipid_read b with
  | none =>
    rcases chipid_read_none_code b hc with h1 | h2
    · simp [h1]
    · simp [h2]
  | some x =>
    by_cases hx : x = BMP280_CHIPID
    · have hx58 : x = 0x58 := hx
      simp only [hx, ne_eq, not_true_eq_false, if_false]
      rcases status_calibration_step_spec d (b.issue (BusOp.read BMP280_REGISTER_CHIPID 1))
        with h | h | h
      · simp [h.1, h.2.1, h.2.2.1, h.2.2.2, BMP280_CHIPID]
      · simp [h.1, BMP280_CHIPID]
      · simp [h.1, BMP280_CHIPID]
    · have hx58 : ¬ x = 0x58 := hx
      simp [hx, hx58]

/-- Instance of C8: `status()` of a freshly constructed driver on the reference device
returns 0. -/
theorem status_return_codes_witness :
    (status init refBus).1 = 0
    ∧ chipid_read refBus = some 0x58
    ∧ (status init refBus).2.1.offline_flag = false
    ∧ (status init refBus).2.1.read_calibration_data_flag = true
    ∧ (status init refBus).2.1.write_settings_flag = true :=
  ⟨by decide, (status_return_codes init refBus).1 (by decide)⟩

/-! ## Settings write -/

/-- C9: `writeSettings(settings)` is atomic on the stored settings.  If the write of
the config register fails it returns 1 and no control write is issued; if the write
of the control register fails it returns 2; in both cases `last_settings` is what it
was before the call.  On success it returns 0, `last_settings` is the requested tuple
and `write_settings_flag` is true.  The config register 0xF5 is written before the
control register 0xF4. -/
theorem writeSettings_atomic (d : BMP280) (b : Bus) (s : Settings) :
    ((write_u8 b 0xF5 (register_config s)).1 ≠ 0 →
      (writeSettings d b s).1 = 1
      ∧ issued b (writeSettings d b s).2.2 = [BusOp.write 0xF5 (register_config s)]
      ∧ (writeSettings d b s).2.1.last_settings = d.last_settings)
    ∧ ((write_u8 b 0xF5 (register_config s)).1 = 0 →
        (write_u8 (write_u8 b 0xF5 (register_config s)).2 0xF4 (register_control s)).1 ≠ 0 →
      (writeSettings d b s).1 = 2
      ∧ issued b (writeSettings d b s).2.2
          = [BusOp.write 0xF5 (register_config s), BusOp.write 0xF4 (register_control s)]
      ∧ (writeSettings d b s).2.1.last_settings = d.last_settings)
    ∧ ((write_u8 b 0xF5 (register_config s)).1 = 0 →
        (write_u8 (write_u8 b 0xF5 (register_config s)).2 0xF4 (register_control s)).1 = 0 →
      (writeSettings d b s).1 = 0
      ∧ issued b (writeSettings d b s).2.2
          = [BusOp.write 0xF5 (register_config s), BusOp.write 0xF4 (register_control s)]
      ∧ (writeSettings d b s).2.1.last_settings = s
      ∧ (writeSettings d b s).2.1.write_settings_flag = true) := by
  simp only [write_u8_code, write_u8_bus, issue_next, writeSettings_cases]
  by_cases h1 : b.next.endTx = 0
  · by_cases h2 : (b.reply (b.log.length + 1)).endTx = 0 <;>
      simp [h1, h2, issued, Bus.issue, BMP280_REGISTER_CONFIG, BMP280_REGISTER_CONTROL]
  · simp [h1, issued, Bus.issue, BMP280_REGISTER_CONFIG]

/-- Instance of C9: the three outcomes on a bus that never acknowledges, on one that
acknowledges only the config write, and on one that acknowledges both writes. -/
theorem writeSettings_atomic_witness :
    ((writeSettings init deadBus sampleSettings).1 = 1
      ∧ issued deadBus (writeSettings init deadBus sampleSettings).2.2
          = [BusOp.write 0xF5 (register_config sampleSettings)]
      ∧ (writeSettings init deadBus sampleSettings).2.1.last_settings = init.last_settings)
    ∧ ((writeSettings init oneAckBus sampleSettings).1 = 2
      ∧ issued oneAckBus (writeSettings init oneAckBus sampleSettings).2.2
          = [BusOp.write 0xF5 (register_config sampleSettings),
             BusOp.write 0xF4 (register_control sampleSettings)]
      ∧ (writeSettings init oneAckBus sampleSettings).2.1.last_settings
          = init.last_settings)
    ∧ ((writeSettings init idleBus sampleSettings).1 = 0
      ∧ issued idleBus (writeSettings init idleBus sampleSettings).2.2
          = [BusOp.write 0xF5 (register_config sampleSettings),
             BusOp.write 0xF4 (register_control sampleSettings)]
      ∧ (writeSettings init idleBus sampleSettings).2.1.last_settings
          = sampleSettings
      ∧ (writeSettings init idleBus sampleSettings).2.1.write_settings_flag = true) :=
  ⟨(writeSettings_atomic init deadBus sampleSettings).1 (by decide),
   (writeSettings_atomic init oneAckBus sampleSettings).2.1 (by decide) (by decide),
   (writeSettings_atomic init idleBus sampleSettings).2.2 (by decide) (by decide)⟩

/-- C10 fails on the code: on a bus that acknowledges two transactions and refuses the
third, `writeSettings(sampleSettings)` returns 0 after writing 0x71 to 0xF5 and 0x4D
to 0xF4, and the following parameterless `writeSettings()` returns 1 after the single
write of 0x71 to 0xF5: it does not issue the same two register writes. -/
theorem writeSettings_last_stops_early :
    (writeSettings init twoAckBus sampleSettings).1 = 0
    ∧ issued twoAckBus (writeSettings init twoAckBus sampleSettings).2.2
        = [BusOp.write 0xF5 0x71, BusOp.write 0xF4 0x4D]
    ∧ (writeSettings_last (writeSettings init twoAckBus sampleSettings).2.1
        (writeSettings init twoAckBus sampleSettings).2.2).1 = 1
    ∧ issued (writeSettings init twoAckBus sampleSettings).2.2
        (writeSettings_last (writeSettings init twoAckBus sampleSettings).2.1
          (writeSettings init twoAckBus sampleSettings).2.2).2.2
      = [BusOp.write 0xF5 0x71]
    ∧ issued (writeSettings init twoAckBus sampleSettings).2.2
        (writeSettings_last (writeSettings init twoAckBus sampleSettings).2.1
          (writeSettings init twoAckBus sampleSettings).2.2).2.2
      ≠ issued twoAckBus (writeSettings init twoAckBus sampleSettings).2.2 := by
  decide

/-- C10 as the code has it: for every settings tuple `s`, after `writeSettings(s)`
returned 0 a following parameterless `writeSettings()` first issues the same config
write (config byte of `s` to 0xF5); when that write is refused it returns 1 after this
single write, and otherwise (whenever it does not return 1) it issues the same two
register writes as the explicit call did, config byte to 0xF5 and then control byte
of `s` to 0xF4; on success it leaves `last_settings` equal to `s`. -/
theorem writeSettings_last_repeats (d : BMP280) (b : Bus) (s : Settings)
    (h : (writeSettings d b s).1 = 0) :
    issued b (writeSettings d b s).2.2
      = [BusOp.write 0xF5 (register_config s), BusOp.write 0xF4 (register_control s)]
    ∧ (issued (writeSettings d b s).2.2
          (writeSettings_last (writeSettings d b s).2.1 (writeSettings d b s).2.2).2.2
        = issued b (writeSettings d b s).2.2
      ∨ ((writeSettings_last (writeSettings d b s).2.1 (writeSettings d b s).2.2).1 = 1
        ∧ issued (writeSettings d b s).2.2
            (writeSettings_last (writeSettings d b s).2.1 (writeSettings d b s).2.2).2.2
          = [BusOp.write 0xF5 (register_config s)]))
    ∧ ((writeSettings_last (writeSettings d b s).2.1 (writeSettings d b s).2.2).1 ≠ 1 →
        issued (writeSettings d b s).2.2
          (writeSettings_last (writeSettings d b s).2.1 (writeSettings d b s).2.2).2.2
        = issued b (writeSettings d b s).2.2)
    ∧ ((writeSettings_last (writeSettings d b s).2.1 (writeSettings d b s).2.2).1 = 0 →
        (writeSettings_last (writeSettings d b s).2.1 (writeSettings d b s).2.2).2.1.last_settings
          = s) := by
  rw [writeSettings_cases] at h
  by_cases h1 : b.next.endTx = 0
  · by_cases h2 : (b.reply (b.log.length + 1)).endTx = 0
    · have hw : writeSettings d b s =
          (0, { d with last_settings := s, write_settings_flag := true },
            (b.issue (BusOp.write BMP280_REGISTER_CONFIG (register_config s))).issue
              (BusOp.write BMP280_REGISTER_CONTROL (register_control s))) := by
        rw [writeSettings_cases]
        simp [h1, h2]
      rw [hw]
      simp only [writeSettings_last_cases]
      by_cases h3 : (b.reply (b.log.length + 2)).endTx = 0
      · by_cases h4 : (b.reply (b.log.length + 2 + 1)).endTx = 0 <;>
          simp [h3, h4, issued, Bus.issue, Bus.next, BMP280_REGISTER_CONFIG,
            BMP280_REGISTER_CONTROL]
      · simp [h3, issued, Bus.issue, Bus.next, BMP280_REGISTER_CONFIG, BMP280_REGISTER_CONTROL]
    · simp [h1, h2] at h
  · simp [h1] at h

/-- Instance of the amended C10: after `writeSettings(sampleSettings)` on an
acknowledging bus the parameterless call writes 0x71 to 0xF5 and 0x4D to 0xF4 again. -/
theorem writeSettings_last_repeats_witness :
    (writeSettings init idleBus sampleSettings).1 = 0
    ∧ issued (writeSettings init idleBus sampleSettings).2.2
        (writeSettings_last (writeSettings init idleBus sampleSettings).2.1
          (writeSettings init idleBus sampleSettings).2.2).2.2
      = [BusOp.write 0xF5 0x71, BusOp.write 0xF4 0x4D]
    ∧ (writeSettings_last (writeSettings init idleBus sampleSettings).2.1
        (writeSettings init idleBus sampleSettings).2.2).2.1.last_settings = sampleSettings :=
  ⟨by decide,
   ((writeSettings_last_repeats init idleBus sampleSettings (by decide)).2.2.1
      (by decide)).trans
     ((writeSettings_last_repeats init idleBus sampleSettings (by decide)).1.trans
       (by decide)),
   (writeSettings_last_repeats init idleBus sampleSettings (by decide)).2.2.2 (by decide)⟩

/-! ## Bus failures during the status check -/

/-- C7 fails on the code.  (a) After a successful `begin()` and a caller's
`writeSettings` that the bus refused, a `status()` whose config-register write is
refused returns 5 and leaves `offline_flag = false`.  (b) On a fresh driver, a
`status()` during which the read of `dig_T2` fails returns 0 and clears
`offline_flag`. -/
theorem status_failure_not_offline :
    (flakyAfterBegin.1 = 0 ∧ flakyAfterWrite.1 = 1
      ∧ failedOps flakyAfterWrite.2.2 flakyAfterStatus.2.2 = [BusOp.write 0xF5 0x05]
      ∧ flakyAfterStatus.1 = 5
      ∧ flakyAfterStatus.2.1.offline_flag = false)
    ∧ (failedOps skipT2Bus (status init skipT2Bus).2.2 = [BusOp.read 0x8A 2]
      ∧ (status init skipT2Bus).1 = 0
      ∧ (status init skipT2Bus).2.1.offline_flag = false
      ∧ (status init skipT2Bus).2.1.calibration_data.dig_T2 = 0) := by
  decide

/-- C7 as the code has it: for every device state and transport behaviour, a failed
chip-id read or a chip-id mismatch makes `status()` return 1, 2 or 3 with
`offline_flag = true`; a failed read of `dig_T1` makes it return 4 with
`read_calibration_data_flag = false`, and a failed write of the config or control
register makes it return 5 with `write_settings_flag = false`, in both cases with
`offline_flag` as it was before the call; so a device that was offline before the
call is offline after every call that does not return 0. -/
theorem status_failure_effects (d : BMP280) (b : Bus) :
    (chipid_read b ≠ some BMP280_CHIPID →
      (status d b).2.1.offline_flag = true
      ∧ ((status d b).1 = 1 ∨ (status d b).1 = 2 ∨ (status d b).1 = 3))
    ∧ (BusOp.read BMP280_REGISTER_CHIPID 1 ∈ failedOps b (status d b).2.2 →
      (status d b).2.1.offline_flag = true
      ∧ ((status d b).1 = 1 ∨ (status d b).1 = 2))
    ∧ (BusOp.read BMP280_REGISTER_DIG_T1 2 ∈ failedOps b (status d b).2.2 →
      (status d b).1 = 4
      ∧ (status d b).2.1.read_calibration_data_flag = false
      ∧ (status d b).2.1.offline_flag = d.offline_flag)
    ∧ (∀ reg data, BusOp.write reg data ∈ failedOps b (status d b).2.2 →
      (status d b).1 = 5
      ∧ (status d b).2.1.write_settings_flag = false
      ∧ (status d b).2.1.offline_flag = d.offline_flag)
    ∧ (d.offline_flag = true → (status d b).1 ≠ 0 →
      (status d b).2.1.offline_flag = true) := by
  rw [status_cases]
  cases hc : chipid_read b with
  | none =>
    have hcode := chipid_read_none_code b hc
    refine ⟨fun _ => ⟨rfl, ?_⟩, fun _ => ⟨rfl, hcode⟩, ?_, ?_, fun _ _ => rfl⟩
    · rcases hcode with h | h
      · exact Or.inl h
      · exact Or.inr (Or.inl h)
    · intro h
      have hm := mem_issued_of_mem_failedOps h
      rw [issued_issue] at hm
      exact absurd hm (by decide)
    · intro reg data h
      have hm := mem_issued_of_mem_failedOps h
      rw [issued_issue] at hm
      exact absurd hm (by simp)
  | some x =>
    by_cases hx : x = BMP280_CHIPID
    · subst hx
      simp only [ne_eq, not_true_eq_false, if_false, false_implies, true_and]
      obtain ⟨⟨m, hm⟩, hfail⟩ :=
        status_calibration_step_failed d (b.issue (BusOp.read BMP280_REGISTER_CHIPID 1))
      have hspec :=
        status_calibration_step_spec d (b.issue (BusOp.read BMP280_REGISTER_CHIPID 1))
      have hsplit := failedOps_trans (extendsBy_issue b (BusOp.read BMP280_REGISTER_CHIPID 1)) hm
      refine ⟨?_, ?_, ?_, ?_⟩
      · intro h
        rw [hsplit, List.mem_append, failedOps_issue] at h
        rcases h with h | h
        · by_cases hf : failsWith (BusOp.read BMP280_REGISTER_CHIPID 1) b.next = true
          · rw [chipid_read_failed b hf] at hc
            exact absurd hc (by simp)
          · simp [hf] at h
        · rcases (hfail _ h).1 with ⟨reg, hr⟩ | ⟨reg, data, hr⟩
          · exact absurd hr (by simp)
          · exact absurd hr (by simp)
      · intro h
        rw [hsplit, List.mem_append, failedOps_issue] at h
        have h4 : (status_calibration_step d
            (b.issue (BusOp.read BMP280_REGISTER_CHIPID 1))).1 = 4 := by
          rcases h with h | h
          · by_cases hf : failsWith (BusOp.read BMP280_REGISTER_CHIPID 1) b.next = true
            · simp only [hf, if_true, List.mem_singleton] at h
              exact absurd h (by decide)
            · simp [hf] at h
          · exact (hfail _ h).2.1 rfl
        rcases hspec with h0 | h | h
        · rw [h0.1] at h4
          exact absurd h4 (by decide)
        · exact ⟨h.1, h.2.2, h.2.1⟩
        · rw [h.1] at h4
          exact absurd h4 (by decide)
      · intro reg data h
        rw [hsplit, List.mem_append, failedOps_issue] at h
        have h5 : (status_calibration_step d
            (b.issue (BusOp.read BMP280_REGISTER_CHIPID 1))).1 = 5 := by
          rcases h with h | h
          · by_cases hf : failsWith (BusOp.read BMP280_REGISTER_CHIPID 1) b.next = true
            · simp only [hf, if_true, List.mem_singleton] at h
              exact absurd h (by simp)
            · simp [hf] at h
          · exact (hfail _ h).2.2 ⟨reg, data, rfl⟩
        rcases hspec with h0 | h | h
        · rw [h0.1] at h5
          exact absurd h5 (by decide)
        · rw [h.1] at h5
          exact absurd h5 (by decide)
        · exact ⟨h.1, h.2.2.1, h.2.1⟩
      · intro hoff hne
        rcases hspec with h0 | h | h
        · exact absurd h0.1 hne
        · rw [h.2.1, hoff]
        · rw [h.2.1, hoff]
    · have hne : some x ≠ some BMP280_CHIPID := by
        simpa using hx
      simp only [ne_eq, hx, not_false_eq_true, if_true]
      refine ⟨fun _ => by simp, ?_, ?_, ?_, fun _ _ => by simp⟩
      · intro h
        rw [failedOps_issue] at h
        by_cases hf : failsWith (BusOp.read BMP280_REGISTER_CHIPID 1) b.next = true
        · rw [chipid_read_failed b hf] at hc
          exact absurd hc (by simp)
        · simp [hf] at h
      · intro h
        have hm := mem_issued_of_mem_failedOps h
        rw [issued_issue] at hm
        exact absurd hm (by decide)
      · intro reg data h
        have hm := mem_issued_of_mem_failedOps h
        rw [issued_issue] at hm
        exact absurd hm (by simp)

/-- Instance of the amended C7: the refused config write of `flakyBus` gives code 5
with `offline_flag` untouched. -/
theorem status_failure_effects_witness :
    BusOp.write 0xF5 0x05 ∈ failedOps flakyAfterWrite.2.2 flakyAfterStatus.2.2
    ∧ flakyAfterStatus.1 = 5
    ∧ flakyAfterStatus.2.1.write_settings_flag = false
    ∧ flakyAfterStatus.2.1.offline_flag = flakyAfterWrite.2.1.offline_flag :=
  ⟨by decide,
   (status_failure_effects flakyAfterWrite.2.1 flakyAfterWrite.2.2).2.2.2.1 0xF5 0x05
     (by decide)⟩

/-! ## Width of the temperature path -/

/-- C4 fails on the code: with `adc_T = 1`, `T1 = 65535`, `T2 = -32768`, `T3 = 0` (all
inside the stated ranges) the product forming `var1` is 4294901760 and the square
forming `var2` is 4294836225, both outside the signed 32-bit range, and the `int32_t`
computation gives `t_fine = -32` where the unbounded formula gives 2097120. -/
theorem temperature_overflow_example :
    temp_intermediates extremeCalT 1
      = [131070, -131070, 4294901760, -65535, 4294836225, 0, 2097120, 10485600, 10485728]
    ∧ ¬ inI32 4294901760
    ∧ ¬ inI32 4294836225
    ∧ t_fine_of extremeCalT 1 = -32
    ∧ t_fine_gen id extremeCalT 1 = 2097120 := by
  decide

/-- C4 as the code has it: for every nonzero raw sample `adc_T` in [1, 2^20), every
`T1` in [1, 65535] and every `T2`, `T3` in [-32768, 32767] such that the 16-bit sample
`adc_T >> 4` is within 16384 of `T1`, every intermediate of the temperature computation
lies in the signed 32-bit range, so the `int32_t` computation of `t_fine` and of the
stored temperature equals the same formula over unbounded integers. -/
theorem temperature_no_overflow (c : Calibration_data) (adc_T : Int)
    (hA : 1 ≤ adc_T ∧ adc_T < 2 ^ 20)
    (hT1 : 1 ≤ c.dig_T1 ∧ c.dig_T1 ≤ 65535)
    (hT2 : -32768 ≤ c.dig_T2 ∧ c.dig_T2 ≤ 32767)
    (hT3 : -32768 ≤ c.dig_T3 ∧ c.dig_T3 ≤ 32767)
    (hE : |asr adc_T 4 - (c.dig_T1 : Int)| ≤ 16384) :
    (∀ x ∈ temp_intermediates c adc_T, inI32 x)
    ∧ t_fine_of c adc_T = t_fine_gen id c adc_T
    ∧ temp_of (t_fine_of c adc_T) = temp_gen id (t_fine_gen id c adc_T) := by
  obtain ⟨hA1, hA2⟩ := hA
  obtain ⟨hT1a, hT1b⟩ := hT1
  have hT1a' : (1 : Int) ≤ (c.dig_T1 : Int) := by exact_mod_cast hT1a
  have hT1b' : (c.dig_T1 : Int) ≤ 65535 := by exact_mod_cast hT1b
  have hT2' : |c.dig_T2| ≤ 32768 := abs_le.mpr ⟨by linarith [hT2.1], by linarith [hT2.2]⟩
  -- the two shifted samples
  have h34 : 2 * asr adc_T 4 ≤ asr adc_T 3 ∧ asr adc_T 3 ≤ 2 * asr adc_T 4 + 1 := by
    unfold asr
    norm_num
    omega
  have hE' := abs_le.mp hE
  -- T1 << 1
  have i1 : inI32 (shl (c.dig_T1 : Int) 1) := by
    unfold shl inI32
    constructor <;> linarith
  -- (adc_T >> 3) - (T1 << 1)
  have hb : |asr adc_T 3 - shl (c.dig_T1 : Int) 1| ≤ 32769 := by
    unfold shl
    rw [abs_le]
    constructor <;> linarith [h34.1, h34.2, hE'.1, hE'.2]
  have i2 : inI32 (asr adc_T 3 - shl (c.dig_T1 : Int) 1) := inI32_of_abs_lt hb (by norm_num)
  -- the product forming var1
  have hp1 : |(asr adc_T 3 - shl (c.dig_T1 : Int) 1) * c.dig_T2| ≤ 32769 * 32768 :=
    abs_mul_le_mul hb hT2'
  have i3 : inI32 ((asr adc_T 3 - shl (c.dig_T1 : Int) 1) * c.dig_T2) :=
    inI32_of_abs_lt hp1 (by norm_num)
  -- (adc_T >> 4) - T1 and its square
  have i4 : inI32 (asr adc_T 4 - (c.dig_T1 : Int)) := inI32_of_abs_lt hE (by norm_num)
  have hsq : |(asr adc_T 4 - (c.dig_T1 : Int)) * (asr adc_T 4 - (c.dig_T1 : Int))|
      ≤ 16384 * 16384 := abs_mul_le_mul hE hE
  have i5 : inI32 ((asr adc_T 4 - (c.dig_T1 : Int)) * (asr adc_T 4 - (c.dig_T1 : Int))) :=
    inI32_of_abs_lt hsq (by norm_num)
  -- the product forming var2
  have hs0 : 0 ≤ asr ((asr adc_T 4 - (c.dig_T1 : Int)) * (asr adc_T 4 - (c.dig_T1 : Int))) 12 :=
    le_asr_of_le 12 (by linarith [mul_self_nonneg (asr adc_T 4 - (c.dig_T1 : Int))])
  have hs1 : asr ((asr adc_T 4 - (c.dig_T1 : Int)) * (asr adc_T 4 - (c.dig_T1 : Int))) 12
      ≤ 65536 :=
    asr_le_of_le 12 (by linarith [(abs_le.mp hsq).2])
  have i6 : inI32
      (asr ((asr adc_T 4 - (c.dig_T1 : Int)) * (asr adc_T 4 - (c.dig_T1 : Int))) 12
        * c.dig_T3) := by
    unfold inI32
    constructor
    · nlinarith [hT3.1, hT3.2]
    · nlinarith [hT3.1, hT3.2]
  -- var1, var2 and their sum
  have hv1 : |asr ((asr adc_T 3 - shl (c.dig_T1 : Int) 1) * c.dig_T2) 11| ≤ 524304 :=
    abs_asr_le 11 (by linarith [hp1])
  have hv2 : |asr (asr ((asr adc_T 4 - (c.dig_T1 : Int)) * (asr adc_T 4 - (c.dig_T1 : Int))) 12
      * c.dig_T3) 14| ≤ 131072 := by
    apply abs_asr_le 14
    unfold inI32 at i6
    rw [abs_le]
    constructor <;> linarith [i6.1, i6.2]
  have ht := abs_add_le_add hv1 hv2
  have i7 : inI32 (asr ((asr adc_T 3 - shl (c.dig_T1 : Int) 1) * c.dig_T2) 11
      + asr (asr ((asr adc_T 4 - (c.dig_T1 : Int)) * (asr adc_T 4 - (c.dig_T1 : Int))) 12
        * c.dig_T3) 14) := inI32_of_abs_lt ht (by norm_num)
  -- the exact t_fine
  have hexact : t_fine_gen id c adc_T
      = asr ((asr adc_T 3 - shl (c.dig_T1 : Int) 1) * c.dig_T2) 11
        + asr (asr ((asr adc_T 4 - (c.dig_T1 : Int)) * (asr adc_T 4 - (c.dig_T1 : Int))) 12
          * c.dig_T3) 14 := rfl
  have hfine : t_fine_of c adc_T = t_fine_gen id c adc_T := by
    rw [hexact]
    simp only [t_fine_of, t_fine_gen, temp_var1, temp_var2, wrap32_eq_self i1,
      wrap32_eq_self i2, wrap32_eq_self i3, wrap32_eq_self i4, wrap32_eq_self i5,
      wrap32_eq_self i6, wrap32_eq_self i7]
  have ht' : |t_fine_gen id c adc_T| ≤ 524304 + 131072 := by
    rw [hexact]
    exact ht
  have ht5 : |t_fine_gen id c adc_T * 5| ≤ (524304 + 131072) * 5 :=
    abs_mul_le_mul ht' (le_of_eq (abs_of_nonneg (by norm_num)))
  have i8 : inI32 (t_fine_gen id c adc_T * 5) := inI32_of_abs_lt ht5 (by norm_num)
  have ht6 : |t_fine_gen id c adc_T * 5 + 128| ≤ (524304 + 131072) * 5 + 128 :=
    abs_add_le_add ht5 (le_of_eq (abs_of_nonneg (by norm_num)))
  have i9 : inI32 (t_fine_gen id c adc_T * 5 + 128) := inI32_of_abs_lt ht6 (by norm_num)
  refine ⟨?_, hfine, ?_⟩
  · intro x hx
    simp only [temp_intermediates, List.mem_cons, List.mem_singleton, List.not_mem_nil,
      or_false] at hx
    rcases hx with h | h | h | h | h | h | h | h | h <;> rw [h]
    · exact i1
    · exact i2
    · exact i3
    · exact i4
    · exact i5
    · exact i6
    · exact inI32_of_abs_lt ht' (by norm_num)
    · exact i8
    · exact i9
  · rw [hfine]
    simp only [temp_of, temp_gen, wrap32_eq_self i8, wrap32_eq_self i9, id]

/-- Instance of the amended C4: the vendor reference set and sample. -/
theorem temperature_no_overflow_witness :
    (∀ x ∈ temp_intermediates refCal 519888, inI32 x)
    ∧ t_fine_of refCal 519888 = t_fine_gen id refCal 519888
    ∧ temp_of (t_fine_of refCal 519888) = temp_gen id (t_fine_gen id refCal 519888) :=
  temperature_no_overflow refCal 519888 (by decide) (by decide) (by decide) (by decide)
    (by decide)

/-! ## Width of the pressure path -/

/-- C5 fails on the code: with the reference temperature coefficients and sample
(`t_fine = 128422`), `adc_P = 415148`, `P1 = 65535`, `P2 = 32767` and the reference
`P3..P9` (all inside the stated ranges) the product `(2^47 + var1) * P1` is
9226943218564417215, above the signed 64-bit maximum 9223372036854775807, and the
`int64_t` computation returns a pressure different from the unbounded formula. -/
theorem pressure_overflow_example :
    t_fine_of extremeCalP 519888 = 128422
    ∧ (press_intermediates extremeCalP 128422 415148).get? 13 = some 9226943218564417215
    ∧ ¬ inI64 9226943218564417215
    ∧ press_of extremeCalP 128422 415148 = some (0, some (-13566487))
    ∧ press_gen id extremeCalP 128422 415148 = some (0, some 14332581) := by
  decide

/-- C5 as the code has it: for every `t_fine` within 2^18 of 128000 (about -26 degC
to +76 degC), every nonzero raw pressure sample `adc_P` in [1, 2^20) and every
calibration set with `P1` in [8192, 49152], `P4` in [-8192, 8192], `P5` in
[-2048, 2048], `P6` in [-1024, 1024] and `P2`, `P3`, `P7`, `P8`, `P9` in
[-32768, 32767], every intermediate of the pressure computation lies in the signed
64-bit range, so the `int64_t` computation equals the same formula over unbounded
integers, and a pressure is produced (the divisor is positive). -/
theorem pressure_no_overflow (c : Calibration_data) (t_fine adc_P : Int)
    (ht : -134144 ≤ t_fine ∧ t_fine ≤ 390144)
    (hP : 1 ≤ adc_P ∧ adc_P < 2 ^ 20)
    (h1 : 8192 ≤ c.dig_P1 ∧ c.dig_P1 ≤ 49152)
    (h2 : -32768 ≤ c.dig_P2 ∧ c.dig_P2 ≤ 32767)
    (h3 : -32768 ≤ c.dig_P3 ∧ c.dig_P3 ≤ 32767)
    (h4 : -8192 ≤ c.dig_P4 ∧ c.dig_P4 ≤ 8192)
    (h5 : -2048 ≤ c.dig_P5 ∧ c.dig_P5 ≤ 2048)
    (h6 : -1024 ≤ c.dig_P6 ∧ c.dig_P6 ≤ 1024)
    (h7 : -32768 ≤ c.dig_P7 ∧ c.dig_P7 ≤ 32767)
    (h8 : -32768 ≤ c.dig_P8 ∧ c.dig_P8 ≤ 32767)
    (h9 : -32768 ≤ c.dig_P9 ∧ c.dig_P9 ≤ 32767) :
    (∀ x ∈ press_intermediates c t_fine adc_P, inI64 x)
    ∧ press_of c t_fine adc_P = press_gen id c t_fine adc_P
    ∧ ∃ p, press_of c t_fine adc_P = some (0, some p) := by
  -- hypotheses as magnitudes
  have hv : |t_fine - 128000| ≤ 2 ^ 18 :=
    abs_le.mpr ⟨by linarith [ht.1], by linarith [ht.2]⟩
  have hP1 : (8192 : Int) ≤ (c.dig_P1 : Int) ∧ (c.dig_P1 : Int) ≤ 49152 :=
    ⟨by exact_mod_cast h1.1, by exact_mod_cast h1.2⟩
  have hP2 : |c.dig_P2| ≤ 32768 := abs_le.mpr ⟨by linarith [h2.1], by linarith [h2.2]⟩
  have hP3 : |c.dig_P3| ≤ 32768 := abs_le.mpr ⟨by linarith [h3.1], by linarith [h3.2]⟩
  have hP4 : |c.dig_P4| ≤ 8192 := abs_le.mpr ⟨by linarith [h4.1], by linarith [h4.2]⟩
  have hP5 : |c.dig_P5| ≤ 2048 := abs_le.mpr ⟨by linarith [h5.1], by linarith [h5.2]⟩
  have hP6 : |c.dig_P6| ≤ 1024 := abs_le.mpr ⟨by linarith [h6.1], by linarith [h6.2]⟩
  have hP7 : |c.dig_P7| ≤ 32768 := abs_le.mpr ⟨by linarith [h7.1], by linarith [h7.2]⟩
  have hP8 : |c.dig_P8| ≤ 32768 := abs_le.mpr ⟨by linarith [h8.1], by linarith [h8.2]⟩
  have hP9 : |c.dig_P9| ≤ 32768 := abs_le.mpr ⟨by linarith [h9.1], by linarith [h9.2]⟩
  -- magnitudes of all subexpressions
  obtain ⟨a1, a2, b1, b2, s1, c1, hvar2⟩ :=
    press_var2_bounds (t_fine - 128000) c.dig_P4 c.dig_P5 c.dig_P6 hv hP4 hP5 hP6
  obtain ⟨d2, e1, e2, s3, f1, f2, hvar1⟩ :=
    press_var1_bounds (t_fine - 128000) (c.dig_P1 : Int) c.dig_P2 c.dig_P3 hv hP1 hP2 hP3
  have ev2 : press_var2 id c t_fine
      = (t_fine - 128000) * (t_fine - 128000) * c.dig_P6
        + shl ((t_fine - 128000) * c.dig_P5) 17 + shl c.dig_P4 35 := rfl
  have ev1 : press_var1 id c t_fine
      = asr ((2 ^ 47 + (asr ((t_fine - 128000) * (t_fine - 128000) * c.dig_P3) 8
          + shl ((t_fine - 128000) * c.dig_P2) 12)) * (c.dig_P1 : Int)) 33 := rfl
  have hvar2' : |press_var2 id c t_fine| ≤ 3 * 2 ^ 47 := by
    rw [ev2]
    exact hvar2
  have hvar1' : 11 * 2 ^ 23 ≤ press_var1 id c t_fine := by
    rw [ev1]
    exact hvar1
  obtain ⟨p0, g1, g2, g3, hq⟩ :=
    press_quot_bounds (press_var1 id c t_fine) (press_var2 id c t_fine) adc_P hP hvar1' hvar2'
  obtain ⟨k1, k2, k3, m1, m2, n1, hfin⟩ :=
    press_final_bounds
      (Int.tdiv ((shl (1048576 - adc_P) 31 - press_var2 id c t_fine) * 3125)
        (press_var1 id c t_fine))
      c.dig_P7 c.dig_P8 c.dig_P9 hq hP7 hP8 hP9
  -- membership in the 64-bit range
  have i_v := inI64_of_abs_lt hv (by norm_num)
  have i_a1 := inI64_of_abs_lt a1 (by norm_num)
  have i_a2 := inI64_of_abs_lt a2 (by norm_num)
  have i_b1 := inI64_of_abs_lt b1 (by norm_num)
  have i_b2 := inI64_of_abs_lt b2 (by norm_num)
  have i_s1 := inI64_of_abs_lt s1 (by norm_num)
  have i_c1 := inI64_of_abs_lt c1 (by norm_num)
  have i_var2 := inI64_of_abs_lt hvar2 (by norm_num)
  have i_d2 := inI64_of_abs_lt d2 (by norm_num)
  have i_e1 := inI64_of_abs_lt e1 (by norm_num)
  have i_e2 := inI64_of_abs_lt e2 (by norm_num)
  have i_s3 := inI64_of_abs_lt s3 (by norm_num)
  have i_f1 : inI64 (2 ^ 47 + (asr ((t_fine - 128000) * (t_fine - 128000) * c.dig_P3) 8
      + shl ((t_fine - 128000) * c.dig_P2) 12)) := by
    unfold inI64
    constructor <;> linarith [f1.1, f1.2]
  have i_f2 : inI64 ((2 ^ 47 + (asr ((t_fine - 128000) * (t_fine - 128000) * c.dig_P3) 8
      + shl ((t_fine - 128000) * c.dig_P2) 12)) * (c.dig_P1 : Int)) := by
    unfold inI64
    constructor <;> linarith [f2.1, f2.2]
  have i_p0 := inI64_of_abs_lt p0 (by norm_num)
  have i_g1 := inI64_of_abs_lt g1 (by norm_num)
  have i_g2 := inI64_of_abs_lt g2 (by norm_num)
  have i_g3 := inI64_of_abs_lt g3 (by norm_num)
  have i_q := inI64_of_abs_lt hq (by norm_num)
  have i_k1 := inI64_of_abs_lt k1 (by norm_num)
  have i_k2 := inI64_of_abs_lt k2 (by norm_num)
  have i_k3 := inI64_of_abs_lt k3 (by norm_num)
  have i_m1 := inI64_of_abs_lt m1 (by norm_num)
  have i_m2 := inI64_of_abs_lt m2 (by norm_num)
  have i_n1 := inI64_of_abs_lt n1 (by norm_num)
  have i_fin := inI64_of_abs_lt hfin (by norm_num)
  -- the int64_t stages equal the unbounded ones
  have hw2 : press_var2 wrap64 c t_fine = press_var2 id c t_fine := by
    rw [ev2]
    simp only [press_var2, press_v, wrap64_eq_self i_v, wrap64_eq_self i_a1,
      wrap64_eq_self i_a2, wrap64_eq_self i_b1, wrap64_eq_self i_b2, wrap64_eq_self i_s1,
      wrap64_eq_self i_c1, wrap64_eq_self i_var2]
  have hw1 : press_var1 wrap64 c t_fine = press_var1 id c t_fine := by
    rw [ev1]
    simp only [press_var1, press_v, wrap64_eq_self i_v, wrap64_eq_self i_a1,
      wrap64_eq_self i_d2, wrap64_eq_self i_e1, wrap64_eq_self i_e2, wrap64_eq_self i_s3,
      wrap64_eq_self i_f1, wrap64_eq_self i_f2]
  have hne : press_var1 id c t_fine ≠ 0 := by
    intro h0
    rw [h0] at hvar1'
    norm_num at hvar1'
  have hof : press_of c t_fine adc_P = press_gen id c t_fine adc_P := by
    unfold press_of
    rw [press_gen_cases, press_gen_cases, hw1, hw2, if_neg hne, if_neg hne]
    simp only [id_eq, press_final, wrap64_eq_self i_p0, wrap64_eq_self i_g1,
      wrap64_eq_self i_g2, wrap64_eq_self i_g3, wrap64_eq_self i_q, wrap64_eq_self i_k1,
      wrap64_eq_self i_k2, wrap64_eq_self i_k3, wrap64_eq_self i_m1, wrap64_eq_self i_m2,
      wrap64_eq_self i_n1, wrap64_eq_self i_fin]
  refine ⟨?_, hof, ?_⟩
  · intro x hx
    simp only [press_intermediates, List.mem_cons, List.mem_singleton, List.not_mem_nil,
      or_false] at hx
    rcases hx with h | h | h | h | h | h | h | h | h | h | h | h | h | h | h | h | h | h | h
      | h | h | h | h | h | h | h <;> rw [h]
    · exact i_v
    · exact i_a1
    · exact i_a2
    · exact i_b1
    · exact i_b2
    · exact i_s1
    · exact i_c1
    · exact inI64_of_abs_lt hvar2' (by norm_num)
    · exact i_d2
    · exact i_e1
    · exact i_e2
    · exact i_s3
    · exact i_f1
    · exact i_f2
    · exact i_p0
    · exact i_g1
    · exact i_g2
    · exact i_g3
    · exact i_q
    · exact i_k1
    · exact i_k2
    · exact i_k3
    · exact i_m1
    · exact i_m2
    · exact i_n1
    · exact i_fin
  · rw [hof, press_gen_cases, if_neg hne]
    exact ⟨_, rfl⟩

/-- Instance of the amended C5: the vendor reference set and samples. -/
theorem pressure_no_overflow_witness :
    (∀ x ∈ press_intermediates refCal 128422 415148, inI64 x)
    ∧ press_of refCal 128422 415148 = press_gen id refCal 128422 415148
    ∧ ∃ p, press_of refCal 128422 415148 = some (0, some p) :=
  pressure_no_overflow refCal 128422 415148 (by decide) (by decide) (by decide) (by decide)
    (by decide) (by decide) (by decide) (by decide) (by decide) (by decide) (by decide)

/-! ## Requests without output -/

/-- C12: when neither temperature nor pressure is requested, `read` returns the
invalid-request code 1 with nothing stored, performs no bus transaction and leaves
the whole device state (calibration data, last settings, the three flags) as it
was. -/
theorem read_nothing_requested (d : BMP280) (b : Bus) :
    read d b false false = some ({ code := 1, temp := none, press := none }, d, b)
    ∧ issued b b = [] := by
  constructor
  · rfl
  · simp [issued]

/-! ## Steady state of the status check -/

/-- C20: for every state with `offline_flag = false`, `read_calibration_data_flag =
true` and `write_settings_flag = true`, a `status()` call whose chip-id read delivers
0x58 returns 0, issues exactly one transaction, the one-byte read of register 0xD0,
and leaves calibration data, last settings and all three flags unchanged. -/
theorem status_steady_state (d : BMP280) (b : Bus)
    (ho : d.offline_flag = false) (hc : d.read_calibration_data_flag = true)
    (hw : d.write_settings_flag = true) (hid : chipid_read b = some 0x58) :
    status d b = (0, d, b.issue (BusOp.read 0xD0 1))
    ∧ issued b (status d b).2.2 = [BusOp.read 0xD0 1] := by
  have hs : status d b = (0, d, b.issue (BusOp.read 0xD0 1)) := by
    rw [status_cases, hid]
    cases d
    simp only at ho hc hw
    subst ho hc hw
    simp [status_calibration_step, status_settings_step, BMP280_CHIPID,
      BMP280_REGISTER_CHIPID]
  rw [hs]
  exact ⟨rfl, issued_issue b _⟩

/-- Instance of C20: the driver after a successful `begin()` on the reference device,
asked for its status again. -/
theorem status_steady_state_witness :
    status steadyDevice chipOkBus = (0, steadyDevice, chipOkBus.issue (BusOp.read 0xD0 1))
    ∧ issued chipOkBus (status steadyDevice chipOkBus).2.2 = [BusOp.read 0xD0 1] :=
  status_steady_state steadyDevice chipOkBus (by decide) (by decide) (by decide) (by decide)

/-! ## Calibration load -/

/-- C15: `read_calibration_data()` returns true and sets `read_calibration_data_flag`
to true exactly when the `dig_T1` decoded from the two bytes just read at 0x88 is
nonzero; otherwise it returns false and sets the flag to false.  The returned value
always equals the flag, and the decoded value is the one stored. -/
theorem read_calibration_data_loaded_iff (d : BMP280) (b : Bus) :
    ((read_calibration_data d b).1 = true
      ↔ decode_u16_rev (read_data b 0x88 [0, 0] 2).2.1 ≠ 0)
    ∧ ((read_calibration_data d b).1 = false
      ↔ decode_u16_rev (read_data b 0x88 [0, 0] 2).2.1 = 0)
    ∧ (read_calibration_data d b).2.1.read_calibration_data_flag
        = (read_calibration_data d b).1
    ∧ (read_calibration_data d b).2.1.calibration_data.dig_T1
        = decode_u16_rev (read_data b 0x88 [0, 0] 2).2.1 := by
  have h1 : (read_calibration_data d b).1
      = decide (decode_u16_rev (read_data b 0x88 [0, 0] 2).2.1 ≠ 0) := rfl
  refine ⟨?_, ?_, rfl, rfl⟩
  · rw [h1]
    simp
  · rw [h1]
    simp

/-! ## Coefficient decoding -/

/-- C17: for all bytes `b0`, `b1` in [0, 255] delivered to `read_u16_rev`, the decoded
value `v` is `b0 + 256 * b1` and re-encoding it little-endian (`v mod 256`,
`v div 256`) gives back `(b0, b1)`; the signed value decoded by `read_i16_rev` from the
same bytes is the two's-complement reinterpretation (`v` below 32768, else
`v - 65536`), and its 16-bit two's-complement pattern re-encodes to the same two
bytes. -/
theorem decode_rev_roundtrip (b : Bus) (reg b0 b1 : Nat) (h0 : b0 < 256) (h1 : b1 < 256)
    (hb : b.next = { endTx := 0, avail := [b0, b1] }) :
    (read_u16_rev b reg).1 = b0 + 256 * b1
    ∧ (read_u16_rev b reg).1 % 256 = b0
    ∧ (read_u16_rev b reg).1 / 256 = b1
    ∧ (read_i16_rev b reg).1
        = (if b0 + 256 * b1 < 32768 then ((b0 + 256 * b1 : Nat) : Int)
           else ((b0 + 256 * b1 : Nat) : Int) - 65536)
    ∧ ((read_i16_rev b reg).1 % 65536) % 256 = (b0 : Int)
    ∧ ((read_i16_rev b reg).1 % 65536) / 256 = (b1 : Int) := by
  have hmod0 : b0 % 256 = b0 := Nat.mod_eq_of_lt h0
  have hmod1 : b1 % 256 = b1 := Nat.mod_eq_of_lt h1
  have hv : (read_u16_rev b reg).1 = b0 + 256 * b1 := by
    simp only [read_u16_rev, read_data_cases, hb]
    simp only [decode_u16_rev, ne_eq, not_true_eq_false, if_false, List.take, List.map,
      hmod0, hmod1, reduceCtorEq, List.length_cons, List.length_nil, List.drop,
      List.append_nil, List.getD_cons_zero, List.getD_cons_succ]
    rw [Nat.shiftLeft_eq, Nat.mul_comm b1 (2 ^ 8),
      ← Nat.mul_add_lt_is_or (show b0 < 2 ^ 8 by omega) b1]
    omega
  have hi : (read_i16_rev b reg).1 = to_i16 (b0 + 256 * b1) := by
    simp only [read_i16_rev, hv]
  refine ⟨hv, ?_, ?_, ?_, ?_, ?_⟩
  · rw [hv]
    omega
  · rw [hv]
    omega
  · rw [hi]
    unfold to_i16
    have hlt : (b0 + 256 * b1) % 65536 = b0 + 256 * b1 := Nat.mod_eq_of_lt (by omega)
    simp only [hlt]
  · rw [hi]
    unfold to_i16
    have hlt : (b0 + 256 * b1) % 65536 = b0 + 256 * b1 := Nat.mod_eq_of_lt (by omega)
    simp only [hlt]
    split <;> omega
  · rw [hi]
    unfold to_i16
    have hlt : (b0 + 256 * b1) % 65536 = b0 + 256 * b1 := Nat.mod_eq_of_lt (by omega)
    simp only [hlt]
    split <;> omega

/-- Instance of C17: the bytes 0x18, 0xFC of the reference `dig_T3` decode to 64536
unsigned and to -1000 signed. -/
theorem decode_rev_roundtrip_witness :
    (read_u16_rev (tableBus [[0x18, 0xFC]]) 0x8C).1 = 0x18 + 256 * 0xFC
    ∧ (read_i16_rev (tableBus [[0x18, 0xFC]]) 0x8C).1 = -1000 :=
  ⟨(decode_rev_roundtrip (tableBus [[0x18, 0xFC]]) 0x8C 0x18 0xFC (by decide) (by decide)
      rfl).1,
   ((decode_rev_roundtrip (tableBus [[0x18, 0xFC]]) 0x8C 0x18 0xFC (by decide) (by decide)
      rfl).2.2.2.1).trans (by decide)⟩

/-! ## Gating and sample checks of `read` -/

/-- C11: `read` fetches the data registers only when its internal status check
succeeded.  For every state and transport behaviour with at least one output
requested, the gate of line 125 (calibration not loaded, or settings not written, or
device offline after the `status()` call) is closed exactly when that `status()`
returned nonzero; then `read` returns 2 with neither output stored and issues nothing
beyond the transactions of `status()`, none of which reads the temperature register
0xFA or the pressure register 0xF7. -/
theorem read_gated (d : BMP280) (b : Bus) (wantT wantP : Bool)
    (hreq : (wantT || wantP) = true) :
    (((!(status d b).2.1.read_calibration_data_flag
        || !(status d b).2.1.write_settings_flag
        || (status d b).2.1.offline_flag) = true) ↔ (status d b).1 ≠ 0)
    ∧ ((status d b).1 ≠ 0 →
        read d b wantT wantP
          = some ({ code := 2, temp := none, press := none }, (status d b).2.1,
              (status d b).2.2))
    ∧ (∀ len, BusOp.read 0xFA len ∉ issued b (status d b).2.2
        ∧ BusOp.read 0xF7 len ∉ issued b (status d b).2.2) := by
  refine ⟨?_, fun h => read_offline d b wantT wantP hreq h, ?_⟩
  · rcases status_gate d b with h | h
    · simp [h.1, h.2.1, h.2.2.1, h.2.2.2]
    · simp [h.1, h.2]
  · intro len
    rw [issued_of_extendsBy (status_ext d b)]
    exact statusOps_no_data_read d b len

/-- Instance of C11: a freshly constructed driver on a bus that never acknowledges. -/
theorem read_gated_witness :
    read init deadBus true true
      = some ({ code := 2, temp := none, press := none }, (status init deadBus).2.1,
          (status init deadBus).2.2) :=
  (read_gated init deadBus true true (by decide)).2.1 (by decide)

/-- C13: for an online device (the status check inside `read` returned 0) and at
least one output requested, when the raw temperature sample (the 24-bit value of
register 0xFA shifted right by 4) is 0, `read` returns 3 with neither output stored,
whether or not pressure was requested; the three-byte read of 0xFA is its last
transaction, so the pressure register 0xF7 is not read and no step of the pressure
path runs. -/
theorem read_temperature_not_ready (d : BMP280) (b : Bus) (wantT wantP : Bool)
    (hreq : (wantT || wantP) = true) (hon : (status d b).1 = 0)
    (hz : asr ((read_u24 (status d b).2.2 0xFA).1 : Int) 4 = 0) :
    read d b wantT wantP
      = some ({ code := 3, temp := none, press := none }, (status d b).2.1,
          (status d b).2.2.issue (BusOp.read 0xFA 3))
    ∧ issued b ((status d b).2.2.issue (BusOp.read 0xFA 3))
        = statusOps d b ++ [BusOp.read 0xFA 3]
    ∧ ∀ len, BusOp.read 0xF7 len ∉ statusOps d b ++ [BusOp.read 0xFA 3] := by
  have hz' : asr ((read_u24 (status d b).2.2 BMP280_REGISTER_TEMPDATA).1 : Int) 4 = 0 := hz
  refine ⟨?_, ?_, ?_⟩
  · rw [read_online d b wantT wantP hreq hon, if_pos hz', read_u24_bus]
    rfl
  · exact issued_of_extendsBy (extendsBy_trans (status_ext d b) (extendsBy_issue _ _))
  · intro len hmem
    rw [List.mem_append] at hmem
    rcases hmem with h | h
    · exact (statusOps_no_data_read d b len).2 h
    · exact absurd h (by simp)

/-- Instance of C13: only pressure is requested from the online reference device while
its temperature register reads zero. -/
theorem read_temperature_not_ready_witness :
    read steadyDevice zeroTempBus false true
      = some ({ code := 3, temp := none, press := none },
          (status steadyDevice zeroTempBus).2.1,
          (status steadyDevice zeroTempBus).2.2.issue (BusOp.read 0xFA 3)) :=
  (read_temperature_not_ready steadyDevice zeroTempBus false true (by decide) (by decide)
    (by decide)).1

/-- C14 fails on the code in its part (b): on the online reference device with both
outputs requested, a temperature register reading zero makes `read` return 3 with no
pressure stored, although the pressure register holds the nonzero sample 415148; the
pressure register is not even read. -/
theorem read_zero_temperature_blocks_pressure :
    (read steadyDevice zeroTempBus true true).map (fun r => (r.1, issued zeroTempBus r.2.2))
      = some ({ code := 3, temp := none, press := none },
          [BusOp.read 0xD0 1, BusOp.read 0xFA 3])
    ∧ asr ((read_u24 ((status steadyDevice zeroTempBus).2.2.issue (BusOp.read 0xFA 3))
        0xF7).1 : Int) 4 = 415148 := by
  decide

/-- C14 as the code has it, for an online device with both outputs requested: (a)
when the raw pressure sample is 0 and the raw temperature sample is nonzero, the
compensated temperature is stored and `read` returns 4 with no pressure stored; (b)
when the raw temperature sample is 0, `read` returns 3 with neither output stored and
without reading the pressure register. -/
theorem read_channels (d : BMP280) (b : Bus) (hon : (status d b).1 = 0) :
    (asr ((read_u24 (status d b).2.2 0xFA).1 : Int) 4 ≠ 0 →
      asr ((read_u24 (read_u24 (status d b).2.2 0xFA).2 0xF7).1 : Int) 4 = 0 →
      read d b true true
        = some ({ code := 4,
                  temp := some (temp_of (t_fine_of (status d b).2.1.calibration_data
                    (asr ((read_u24 (status d b).2.2 0xFA).1 : Int) 4))),
                  press := none }, (status d b).2.1,
            ((status d b).2.2.issue (BusOp.read 0xFA 3)).issue (BusOp.read 0xF7 3)))
    ∧ (asr ((read_u24 (status d b).2.2 0xFA).1 : Int) 4 = 0 →
      read d b true true
        = some ({ code := 3, temp := none, press := none }, (status d b).2.1,
            (status d b).2.2.issue (BusOp.read 0xFA 3))) := by
  constructor
  · intro hT hP
    have hT' : ¬ asr ((read_u24 (status d b).2.2 BMP280_REGISTER_TEMPDATA).1 : Int) 4 = 0 := hT
    have hP' : asr ((read_u24 (read_u24 (status d b).2.2 BMP280_REGISTER_TEMPDATA).2
        BMP280_REGISTER_PRESSUREDATA).1 : Int) 4 = 0 := hP
    rw [read_online d b true true rfl hon, if_neg hT', if_pos rfl, if_pos hP', read_u24_bus,
      read_u24_bus]
    rfl
  · intro hT
    have hT' : asr ((read_u24 (status d b).2.2 BMP280_REGISTER_TEMPDATA).1 : Int) 4 = 0 := hT
    rw [read_online d b true true rfl hon, if_pos hT', read_u24_bus]
    rfl

/-- Instance of the amended C14: the online reference device with a pressure register
reading zero still delivers the temperature 2508. -/
theorem read_channels_witness :
    read steadyDevice zeroPressBus true true
      = some ({ code := 4, temp := some 2508, press := none },
          (status steadyDevice zeroPressBus).2.1,
          ((status steadyDevice zeroPressBus).2.2.issue (BusOp.read 0xFA 3)).issue
            (BusOp.read 0xF7 3)) :=
  ((read_channels steadyDevice zeroPressBus (by decide)).1 (by decide) (by decide)).trans
    (by rfl)

/-! ## Reachable states -/

/-- C19: in every state reachable from the constructor's initial state by any
sequence of the public operations (`begin`, `status`, both `writeSettings` overloads,
`read`, `getT`, `getP`) under arbitrary transport behaviour, `offline_flag = false`
implies `read_calibration_data_flag = true` and a stored `dig_T1` different from 0. -/
theorem reachable_online_calibrated (d : BMP280) (h : Reachable d)
    (ho : d.offline_flag = false) :
    d.read_calibration_data_flag = true ∧ d.calibration_data.dig_T1 ≠ 0 :=
  ⟨(flagsConsistent_of_reachable d h).1 ho,
   (flagsConsistent_of_reachable d h).2 ((flagsConsistent_of_reachable d h).1 ho)⟩

/-- Instance of C19: the driver after `begin()` on the reference device. -/
theorem reachable_online_calibrated_witness :
    steadyDevice.read_calibration_data_flag = true
    ∧ steadyDevice.calibration_data.dig_T1 ≠ 0 :=
  reachable_online_calibrated steadyDevice (Reachable.by_begin init refBus Reachable.start)
    (by decide)

/-! ## Stored coefficients after a calibration load -/

/-- C16 fails on the code: the driver holding the reference coefficients loses them
in a load that reports NotLoaded.  On a bus that never acknowledges,
`read_calibration_data()` returns false and all twelve stored coefficients are 0; the
same happens through the public interface when a `status()` with a refused chip-id
read is followed by a `status()` whose coefficient reads are refused (return 4). -/
theorem calibration_discarded_example :
    steadyDevice.calibration_data = refCal
    ∧ (read_calibration_data steadyDevice deadBus).1 = false
    ∧ (read_calibration_data steadyDevice deadBus).2.1.calibration_data
        = init.calibration_data
    ∧ init.calibration_data ≠ refCal
    ∧ lostAfterDrop.1 = 1
    ∧ lostAfterDrop.2.1.calibration_data = refCal
    ∧ lostAfterRetry.1 = 4
    ∧ lostAfterRetry.2.1.calibration_data = init.calibration_data := by
  decide

/-- C16 as the code has it: `read_calibration_data()` overwrites the stored
coefficients with what its twelve reads decode, whatever was stored before: the
coefficients and the returned flag after the call do not depend on the previous
state; when the call reports NotLoaded the stored `dig_T1` is 0; when every read
fails it reports NotLoaded and all twelve stored coefficients are 0.  The offline
flag, the settings flag and the last settings are untouched. -/
theorem read_calibration_data_overwrites (d d2 : BMP280) (b : Bus) :
    (read_calibration_data d b).2.1.calibration_data
      = (read_calibration_data d2 b).2.1.calibration_data
    ∧ (read_calibration_data d b).1 = (read_calibration_data d2 b).1
    ∧ ((read_calibration_data d b).1 = false →
        (read_calibration_data d b).2.1.calibration_data.dig_T1 = 0)
    ∧ ((∀ n, (b.reply n).endTx ≠ 0 ∨ (b.reply n).avail = []) →
        (read_calibration_data d b).1 = false
        ∧ (read_calibration_data d b).2.1.calibration_data = init.calibration_data)
    ∧ (read_calibration_data d b).2.1.offline_flag = d.offline_flag
    ∧ (read_calibration_data d b).2.1.write_settings_flag = d.write_settings_flag
    ∧ (read_calibration_data d b).2.1.last_settings = d.last_settings := by
  have hflag : (read_calibration_data d b).1
      = decide ((read_calibration_data d b).2.1.calibration_data.dig_T1 ≠ 0) := rfl
  refine ⟨rfl, rfl, ?_, ?_, rfl, rfl, rfl⟩
  · intro h
    rw [hflag] at h
    simpa using h
  · intro h
    have hz := read_calibration_data_silent d b h
    refine ⟨?_, hz⟩
    rw [hflag, hz]
    rfl

/-- Instance of the amended C16: the reference coefficients are replaced by zeros on a
bus that never acknowledges. -/
theorem read_calibration_data_overwrites_witness :
    (read_calibration_data steadyDevice deadBus).1 = false
    ∧ (read_calibration_data steadyDevice deadBus).2.1.calibration_data
        = init.calibration_data :=
  (read_calibration_data_overwrites steadyDevice init deadBus).2.2.2.1
    (fun _ => Or.inr rfl)

/-! ## Re-synchronisation of an offline device -/

/-- C18: `offline_flag` dominates the two other flags.  For every state with
`offline_flag = true`, whatever `read_calibration_data_flag` and `write_settings_flag`
are, a `status()` call whose chip-id read delivers 0x58 reads all twelve calibration
coefficients from the bus and, if that load reports Loaded, writes the config byte of
`last_settings` to 0xF5 and, once that write is acknowledged, the control byte to
0xF4; `offline_flag` is cleared only by a call that issued all of these
transactions. -/
theorem status_offline_resyncs (d : BMP280) (b : Bus)
    (hoff : d.offline_flag = true) (hid : chipid_read b = some 0x58) :
    issued b (status d b).2.2
      = BusOp.read 0xD0 1 :: calOps ++
          (if (read_calibration_data d (b.issue (BusOp.read 0xD0 1))).1 = true then
            (if (read_calibration_data d (b.issue (BusOp.read 0xD0 1))).2.2.next.endTx ≠ 0
              then [BusOp.write 0xF5 (register_config d.last_settings)]
              else [BusOp.write 0xF5 (register_config d.last_settings),
                    BusOp.write 0xF4 (register_control d.last_settings)])
           else [])
    ∧ ((status d b).2.1.offline_flag = false →
        issued b (status d b).2.2
          = BusOp.read 0xD0 1 :: calOps ++
              [BusOp.write 0xF5 (register_config d.last_settings),
               BusOp.write 0xF4 (register_control d.last_settings)]) := by
  have hid' : chipid_read b = some BMP280_CHIPID := hid
  have hcond : (!d.read_calibration_data_flag || d.offline_flag) = true := by
    simp [hoff]
  have hfl : (read_calibration_data d (b.issue (BusOp.read BMP280_REGISTER_CHIPID 1))).1
      = (read_calibration_data d
          (b.issue (BusOp.read BMP280_REGISTER_CHIPID 1))).2.1.read_calibration_data_flag :=
    rfl
  have hops : issued b (status d b).2.2
      = BusOp.read 0xD0 1 :: calOps ++
          (if (read_calibration_data d (b.issue (BusOp.read 0xD0 1))).1 = true then
            (if (read_calibration_data d (b.issue (BusOp.read 0xD0 1))).2.2.next.endTx ≠ 0
              then [BusOp.write 0xF5 (register_config d.last_settings)]
              else [BusOp.write 0xF5 (register_config d.last_settings),
                    BusOp.write 0xF4 (register_control d.last_settings)])
           else []) := by
    rw [issued_of_extendsBy (status_ext d b)]
    simp only [statusOps, hid', if_true, calibrationStepOps, hcond]
    cases hf : (read_calibration_data d
        (b.issue (BusOp.read BMP280_REGISTER_CHIPID 1))).2.1.read_calibration_data_flag
    · have h1 : (read_calibration_data d (b.issue (BusOp.read 0xD0 1))).1 = false := by
        rw [← hf]
        rfl
      simp [h1]
      rfl
    · have h1 : (read_calibration_data d (b.issue (BusOp.read 0xD0 1))).1 = true := by
        rw [← hf]
        rfl
      have hset : (!(read_calibration_data d
            (b.issue (BusOp.read BMP280_REGISTER_CHIPID 1))).2.1.write_settings_flag
          || (read_calibration_data d
            (b.issue (BusOp.read BMP280_REGISTER_CHIPID 1))).2.1.offline_flag) = true := by
        rw [(read_calibration_data_frame d _).1, hoff]
        simp
      simp only [h1, if_true, Bool.not_true, Bool.false_eq_true, if_false, settingsOps, hset,
        (read_calibration_data_frame d _).2.2.1]
      rfl
  refine ⟨hops, ?_⟩
  intro hclr
  rw [hops]
  have hst : status d b
      = status_calibration_step d (b.issue (BusOp.read BMP280_REGISTER_CHIPID 1)) := by
    rw [status_cases, hid']
    simp
  rw [hst] at hclr
  simp only [status_calibration_step, hcond, if_true] at hclr
  cases hf : (read_calibration_data d
      (b.issue (BusOp.read BMP280_REGISTER_CHIPID 1))).2.1.read_calibration_data_flag
  · simp only [hf, Bool.not_false, if_true] at hclr
    rw [(read_calibration_data_frame d _).1, hoff] at hclr
    exact absurd hclr (by decide)
  · have h1 : (read_calibration_data d (b.issue (BusOp.read 0xD0 1))).1 = true := by
      rw [← hf]
      rfl
    have hset : (!(read_calibration_data d
          (b.issue (BusOp.read BMP280_REGISTER_CHIPID 1))).2.1.write_settings_flag
        || (read_calibration_data d
          (b.issue (BusOp.read BMP280_REGISTER_CHIPID 1))).2.1.offline_flag) = true := by
      rw [(read_calibration_data_frame d _).1, hoff]
      simp
    simp only [hf, Bool.not_true, Bool.false_eq_true, if_false, status_settings_step, hset,
      if_true, writeSettings_last_cases] at hclr
    by_cases h2 : (read_calibration_data d
        (b.issue (BusOp.read BMP280_REGISTER_CHIPID 1))).2.2.next.endTx = 0
    · have h2' : (read_calibration_data d (b.issue (BusOp.read 0xD0 1))).2.2.next.endTx = 0 :=
        h2
      simp [h1, h2']
    · simp only [h2, ne_eq, not_false_eq_true, if_true, Bool.not_false] at hclr
      rw [(read_calibration_data_frame d _).1, hoff] at hclr
      exact absurd hclr (by decide)

/-- Instance of C18: the online reference driver with `offline_flag` set again, both
other flags still true, re-reads the coefficients and re-writes both registers. -/
theorem status_offline_resyncs_witness :
    lapsedDevice.read_calibration_data_flag = true
    ∧ lapsedDevice.write_settings_flag = true
    ∧ issued refBus (status lapsedDevice refBus).2.2
        = BusOp.read 0xD0 1 :: calOps ++
            [BusOp.write 0xF5 (register_config lapsedDevice.last_settings),
             BusOp.write 0xF4 (register_control lapsedDevice.last_settings)] :=
  ⟨by decide, by decide,
   (status_offline_resyncs lapsedDevice refBus (by decide) (by decide)).2 (by decide)⟩

end BMP280
